import Mathlib

/-!
# hello_dongle: the LED cycle and the button press classifier of `src/main.c`

A shallow embedding of `cycle_led`, `button_handler` and `button_timer_handler`.
The C globals `buttons_ctx` and `current_state` become the fields of one record,
`Sys`, which every function takes and returns.  Calls into the platform
(`dk_set_led_on`, `dk_set_led_off`, `k_timer_start`, `k_timer_stop`, `LOG_DBG`) are
recorded, in program order, in the field `trace`.
-/

namespace HelloDongle

/-! ## Constants -/

/-- The constants of `dk_buttons_and_leds.h` that `main.c` uses.  The header is not
part of the sources, so the values are parameters of the model. -/
structure DkHeader where
  /-- Index of the green heartbeat LED. -/
  DK_LED1 : Int
  /-- Index of the LED switched off when leaving state 3. -/
  DK_LED4 : Int
  /-- Bit mask of button 1. -/
  DK_BTN1_MSK : Nat
deriving DecidableEq

/-- The values the nRF Connect SDK header gives these constants
(`DK_LED1 = 0`, `DK_LED4 = 3`, `DK_BTN1_MSK = BIT(0)`); used for concrete runs. -/
def nrfHeader : DkHeader := { DK_LED1 := 0, DK_LED4 := 3, DK_BTN1_MSK := 1 }

/-- `BUTTON_LONG_POLL_TIME`, that is `K_MSEC(200)`, in milliseconds. -/
def BUTTON_LONG_POLL_TIME : Nat := 200

/-- `GREEN_LED_BLINK_TIME`, that is `K_MSEC(500)`, in milliseconds. -/
def GREEN_LED_BLINK_TIME : Nat := 500

/-- `ATOMIC_FALSE`, `0U`. -/
def ATOMIC_FALSE : Int := 0

/-- `ATOMIC_TRUE`, `1U`. -/
def ATOMIC_TRUE : Int := 1

/-! ## State -/

/-- The messages of the `LOG_DBG` calls of the two handlers. -/
inductive LogMsg where
  | button_1_changed
  | unhandled_button
  | button_pressed
  | button_released
  | long_press_detected
deriving DecidableEq

/-- One call into the platform.  `enter_cycle_led` is a ghost entry: it writes nothing
and only marks that `cycle_led` was entered, so that calls can be counted. -/
inductive Act where
  | dk_set_led_on (led_idx : Int)
  | dk_set_led_off (led_idx : Int)
  | k_timer_start (duration_ms : Nat)
  | k_timer_stop
  | k_sleep (duration_ms : Nat)
  | log (msg : LogMsg)
  | enter_cycle_led
deriving DecidableEq

/-- `struct buttons_context`.  `timer` is `some d` while the one-shot timer is running
with duration `d` ms and `none` while it is stopped. -/
structure buttons_context where
  state : Nat
  long_poll : Int
  timer : Option Nat
deriving DecidableEq

/-- The two globals of `main.c` and the record of platform calls made so far. -/
structure Sys where
  buttons_ctx : buttons_context
  current_state : Int
  trace : List Act
deriving DecidableEq

/-- The globals as the C runtime initialises them (`buttons_ctx` zeroed,
`current_state = 0`), the timer initialised and stopped, nothing done yet. -/
def init : Sys :=
  { buttons_ctx := { state := 0, long_poll := 0, timer := none }
    current_state := 0
    trace := [] }

/-- Record one platform call. -/
def emit (a : Act) (s : Sys) : Sys :=
  { s with trace := s.trace ++ [a] }

/-- `k_timer_start(&buttons_ctx.timer, d, K_NO_WAIT)`: (re)start the one-shot timer. -/
def k_timer_start (d : Nat) (s : Sys) : Sys :=
  emit (Act.k_timer_start d) { s with buttons_ctx := { s.buttons_ctx with timer := some d } }

/-- `k_timer_stop(&buttons_ctx.timer)`. -/
def k_timer_stop (s : Sys) : Sys :=
  emit Act.k_timer_stop { s with buttons_ctx := { s.buttons_ctx with timer := none } }

/-- `atomic_set(&buttons_ctx.long_poll, v)`. -/
def atomic_set_long_poll (v : Int) (s : Sys) : Sys :=
  { s with buttons_ctx := { s.buttons_ctx with long_poll := v } }

/-! ## The functions of `main.c` -/

/-- `cycle_led` (main.c lines 41-54). -/
def cycle_led (dk : DkHeader) (s0 : Sys) : Sys :=
  let s := emit Act.enter_cycle_led s0
  if s.current_state = 3 then
    let s := emit (Act.dk_set_led_off dk.DK_LED4) s
    { s with current_state := 0 }
  else if s.current_state = 0 then
    let s := { s with current_state := 1 }
    emit (Act.dk_set_led_on s.current_state) s
  else
    let s := emit (Act.dk_set_led_off s.current_state) s
    let s := { s with current_state := s.current_state + 1 }
    emit (Act.dk_set_led_on s.current_state) s

/-- `button_handler` (main.c lines 62-88).  The second `switch` has no `default`:
a `button_state` that is neither `DK_BTN1_MSK` nor `0` falls through it. -/
def button_handler (dk : DkHeader) (button_state has_changed : Nat) (s0 : Sys) : Sys :=
  if has_changed = dk.DK_BTN1_MSK then
    let s := emit (Act.log LogMsg.button_1_changed) s0
    if button_state = dk.DK_BTN1_MSK then
      let s := emit (Act.log LogMsg.button_pressed) s
      let s := { s with buttons_ctx := { s.buttons_ctx with state := button_state } }
      let s := atomic_set_long_poll ATOMIC_FALSE s
      k_timer_start BUTTON_LONG_POLL_TIME s
    else if button_state = 0 then
      let s := emit (Act.log LogMsg.button_released) s
      let s := k_timer_stop s
      if s.buttons_ctx.long_poll = ATOMIC_FALSE then
        cycle_led dk s
      else
        s
    else
      s
  else
    emit (Act.log LogMsg.unhandled_button) s0

/-- `button_timer_handler` (main.c lines 94-109); `buttons` is what `dk_get_buttons()`
returns when the handler runs. -/
def button_timer_handler (dk : DkHeader) (buttons : Nat) (s0 : Sys) : Sys :=
  if buttons &&& s0.buttons_ctx.state ≠ 0 then
    let s := atomic_set_long_poll ATOMIC_TRUE s0
    let s := emit (Act.log LogMsg.long_press_detected) s
    let s := cycle_led dk s
    k_timer_start BUTTON_LONG_POLL_TIME s
  else
    atomic_set_long_poll ATOMIC_FALSE s0

/-! ## Events -/

/-- What the platform delivers: a button edge with the two bit masks of the callback,
or the expiry of the timer together with the value `dk_get_buttons()` has then. -/
inductive Event where
  | edge (button_state has_changed : Nat)
  | timer_expiry (buttons : Nat)
deriving DecidableEq

/-- The expiry of the one-shot timer: the timer is no longer running and its expiry
function `button_timer_handler` runs. -/
def timer_expire (dk : DkHeader) (buttons : Nat) (s : Sys) : Sys :=
  button_timer_handler dk buttons { s with buttons_ctx := { s.buttons_ctx with timer := none } }

/-- One event.  An edge can always be delivered; the timer can expire only while it is
running, otherwise there is no step. -/
def step (dk : DkHeader) (s : Sys) : Event → Option Sys
  | Event.edge button_state has_changed => some (button_handler dk button_state has_changed s)
  | Event.timer_expiry buttons =>
    match s.buttons_ctx.timer with
    | some _ => some (timer_expire dk buttons s)
    | none => none

/-- A sequence of events, in order; `none` when one of them cannot occur. -/
def run (dk : DkHeader) (s : Sys) : List Event → Option Sys
  | [] => some s
  | e :: es =>
    match step dk s e with
    | some s1 => run dk s1 es
    | none => none

/-- The press edge of button 1. -/
def pressEdge (dk : DkHeader) : Event := Event.edge dk.DK_BTN1_MSK dk.DK_BTN1_MSK

/-- The release edge of button 1. -/
def releaseEdge (dk : DkHeader) : Event := Event.edge 0 dk.DK_BTN1_MSK

/-! ## Observations on the trace -/

/-- Number of times `cycle_led` has been entered. -/
def cycleCalls (s : Sys) : Nat := s.trace.count Act.enter_cycle_led

/-- The LEDs after one platform call. -/
def ledStep (leds : Int → Bool) : Act → Int → Bool
  | Act.dk_set_led_on i => fun j => if j = i then true else leds j
  | Act.dk_set_led_off i => fun j => if j = i then false else leds j
  | _ => leds

/-- The LEDs after a trace of platform calls, all LEDs being off before it. -/
def ledsAfter (tr : List Act) : Int → Bool :=
  tr.foldl ledStep (fun _ => false)

/-- How many of the three cycle LEDs (indices 1, 2, 3) are lit. -/
def litCount (leds : Int → Bool) : Nat :=
  (if leds 1 then 1 else 0) + (if leds 2 then 1 else 0) + (if leds 3 then 1 else 0)

/-- The cycle LEDs show `current_state`: LED `i` (for `i` = 1, 2, 3) is lit exactly when
`current_state = i`; in state 0 none of the three is lit. -/
def ledsMatch (s : Sys) : Prop :=
  ledsAfter s.trace 1 = decide (s.current_state = 1) ∧
  ledsAfter s.trace 2 = decide (s.current_state = 2) ∧
  ledsAfter s.trace 3 = decide (s.current_state = 3)

/-! ## The heartbeat loop of `main` -/

/-- One iteration of the `while(1)` loop of `main` (main.c lines 138-141). -/
def heartbeat_iteration (dk : DkHeader) (s0 : Sys) : Sys :=
  let s := emit (Act.dk_set_led_on dk.DK_LED1) s0
  let s := emit (Act.k_sleep GREEN_LED_BLINK_TIME) s
  let s := emit (Act.dk_set_led_off dk.DK_LED1) s
  emit (Act.k_sleep GREEN_LED_BLINK_TIME) s

/-- The first `n` iterations of the `while(1)` loop of `main` (main.c lines 137-142);
the loop itself never ends. -/
def heartbeat_loop (dk : DkHeader) : Nat → Sys → Sys
  | 0, s => s
  | n + 1, s => heartbeat_loop dk n (heartbeat_iteration dk s)

/-- The four platform calls of one loop iteration, in program order. -/
def heartbeatPattern (dk : DkHeader) : List Act :=
  [Act.dk_set_led_on dk.DK_LED1, Act.k_sleep GREEN_LED_BLINK_TIME,
   Act.dk_set_led_off dk.DK_LED1, Act.k_sleep GREEN_LED_BLINK_TIME]

/-- The pattern of one iteration repeated `n` times. -/
def heartbeatSeq (dk : DkHeader) : Nat → List Act
  | 0 => []
  | n + 1 => heartbeatPattern dk ++ heartbeatSeq dk n

/-- The platform call the loop makes after it has made `pc` calls. -/
def heartbeat_action (dk : DkHeader) (pc : Nat) : Act :=
  if pc % 4 = 0 then Act.dk_set_led_on dk.DK_LED1
  else if pc % 4 = 2 then Act.dk_set_led_off dk.DK_LED1
  else Act.k_sleep GREEN_LED_BLINK_TIME

/-- The globals together with the progress of the main thread: `pc` counts the platform
calls the heartbeat loop has made. -/
structure World where
  sys : Sys
  pc : Nat
deriving DecidableEq

/-- What happens next: the main thread makes its next platform call, or a handler runs
to completion on an event. -/
inductive Tick where
  | main
  | event (e : Event)
deriving DecidableEq

/-- One tick of the interleaved system. -/
def tick (dk : DkHeader) (w : World) : Tick → Option World
  | Tick.main => some { sys := emit (heartbeat_action dk w.pc) w.sys, pc := w.pc + 1 }
  | Tick.event e =>
    match step dk w.sys e with
    | some s1 => some { sys := s1, pc := w.pc }
    | none => none

/-- A sequence of ticks, in order; `none` when one of them cannot occur. -/
def runTicks (dk : DkHeader) (w : World) : List Tick → Option World
  | [] => some w
  | t :: ts =>
    match tick dk w t with
    | some w1 => runTicks dk w1 ts
    | none => none

/-- Whether a platform call writes LED `i`. -/
def writesLed (i : Int) : Act → Bool
  | Act.dk_set_led_on j => decide (j = i)
  | Act.dk_set_led_off j => decide (j = i)
  | _ => false

/-- Whether a platform call is one the heartbeat loop makes: a write of `DK_LED1` or a
`k_sleep`. -/
def heartbeatAct (dk : DkHeader) : Act → Bool
  | Act.dk_set_led_on j => decide (j = dk.DK_LED1)
  | Act.dk_set_led_off j => decide (j = dk.DK_LED1)
  | Act.k_sleep _ => true
  | _ => false

/-- The button state a handler looks at: `button_state` of an edge, the value of
`dk_get_buttons()` at a timer expiry. -/
def Event.observed : Event → Nat
  | Event.edge button_state _ => button_state
  | Event.timer_expiry buttons => buttons

/-- The events of the press classifier: the press edge and the release edge of button 1
and timer expiries. -/
def recognised (dk : DkHeader) (e : Event) : Prop :=
  e = pressEdge dk ∨ e = releaseEdge dk ∨ ∃ b, e = Event.timer_expiry b

/-! ## Basic facts -/

@[simp] theorem emit_current_state (a : Act) (s : Sys) :
    (emit a s).current_state = s.current_state := rfl

@[simp] theorem emit_buttons_ctx (a : Act) (s : Sys) :
    (emit a s).buttons_ctx = s.buttons_ctx := rfl

@[simp] theorem emit_trace (a : Act) (s : Sys) :
    (emit a s).trace = s.trace ++ [a] := rfl

/-- What `cycle_led` does to `current_state`, in any state. -/
theorem cycle_led_current_state (dk : DkHeader) (s : Sys) :
    (cycle_led dk s).current_state =
      if s.current_state = 3 then 0 else if s.current_state = 0 then 1
      else s.current_state + 1 := by
  unfold cycle_led
  simp only [emit_current_state]
  split_ifs <;> simp

/-- The entries `cycle_led` adds to the trace, in any state. -/
theorem cycle_led_trace (dk : DkHeader) (s : Sys) :
    (cycle_led dk s).trace =
      s.trace ++ (Act.enter_cycle_led ::
        (if s.current_state = 3 then [Act.dk_set_led_off dk.DK_LED4]
         else if s.current_state = 0 then [Act.dk_set_led_on 1]
         else [Act.dk_set_led_off s.current_state,
               Act.dk_set_led_on (s.current_state + 1)])) := by
  unfold cycle_led
  simp only [emit_current_state]
  split_ifs <;> simp

/-- The function `cycle_led` leaves `buttons_ctx` alone. -/
theorem cycle_led_buttons_ctx (dk : DkHeader) (s : Sys) :
    (cycle_led dk s).buttons_ctx = s.buttons_ctx := by
  unfold cycle_led
  simp only [emit_current_state]
  split_ifs <;> simp

/-- Every call of `cycle_led` is counted once. -/
theorem cycleCalls_cycle_led (dk : DkHeader) (s : Sys) :
    cycleCalls (cycle_led dk s) = cycleCalls s + 1 := by
  unfold cycleCalls
  rw [cycle_led_trace]
  split_ifs <;> simp [List.count_cons]

/-- One call of `cycle_led` on a state in `0..3` moves to the next residue mod 4. -/
theorem cycle_led_succ_mod (dk : DkHeader) (s : Sys) (n : Nat)
    (h : s.current_state = ((n % 4 : Nat) : Int)) :
    (cycle_led dk s).current_state = (((n + 1) % 4 : Nat) : Int) := by
  rw [cycle_led_current_state, h]
  have h4 : n % 4 < 4 := Nat.mod_lt _ (by decide)
  split_ifs <;> omega

/-- After `n` calls from state 0 the state is `n mod 4`. -/
theorem iterate_cycle_led_state (dk : DkHeader) (s : Sys) (n : Nat)
    (h0 : s.current_state = 0) :
    ((cycle_led dk)^[n] s).current_state = ((n % 4 : Nat) : Int) := by
  induction n with
  | zero => simpa using h0
  | succ n ih =>
    rw [Function.iterate_succ_apply']
    exact cycle_led_succ_mod dk _ n ih

/-! ## The output cycle -/

/-- C1: starting from `current_state = 0` (OFF), after `N` successive calls of
`cycle_led` the value of `current_state` is `N mod 4`. -/
theorem cycle_led_iterate_mod_four (dk : DkHeader) (s : Sys) (N : Nat)
    (h0 : s.current_state = 0) :
    ((cycle_led dk)^[N] s).current_state = ((N % 4 : Nat) : Int) :=
  iterate_cycle_led_state dk s N h0

/-- C1 at a concrete input: seven calls from the initial state end in state 3. -/
theorem cycle_led_iterate_mod_four_witness :
    init.current_state = 0 ∧
      ((cycle_led nrfHeader)^[7] init).current_state = ((7 % 4 : Nat) : Int) :=
  ⟨rfl, cycle_led_iterate_mod_four nrfHeader init 7 rfl⟩

/-- C2: one call of `cycle_led` performs exactly the writes of the transition table
and moves `current_state` to the successor: from OFF (0) it turns LED 1 on; from A (1)
it turns LED 1 off and then LED 2 on; from B (2) it turns LED 2 off and then LED 3 on;
from C (3) it turns `DK_LED4`, which is LED 3, off.  Nothing else changes. -/
theorem cycle_led_transition_table (dk : DkHeader) (s : Sys) (h4 : dk.DK_LED4 = 3) :
    (s.current_state = 0 → cycle_led dk s =
        { s with current_state := 1
                 trace := s.trace ++ [Act.enter_cycle_led, Act.dk_set_led_on 1] }) ∧
    (s.current_state = 1 → cycle_led dk s =
        { s with current_state := 2
                 trace := s.trace ++ [Act.enter_cycle_led, Act.dk_set_led_off 1,
                                      Act.dk_set_led_on 2] }) ∧
    (s.current_state = 2 → cycle_led dk s =
        { s with current_state := 3
                 trace := s.trace ++ [Act.enter_cycle_led, Act.dk_set_led_off 2,
                                      Act.dk_set_led_on 3] }) ∧
    (s.current_state = 3 → cycle_led dk s =
        { s with current_state := 0
                 trace := s.trace ++ [Act.enter_cycle_led, Act.dk_set_led_off 3] }) := by
  refine ⟨?_, ?_, ?_, ?_⟩ <;> intro h <;> simp [cycle_led, emit, h, h4]

/-- C2 at a concrete input: the call made in state 1 of the SDK configuration. -/
theorem cycle_led_transition_table_witness :
    nrfHeader.DK_LED4 = 3 ∧
      cycle_led nrfHeader { init with current_state := 1 } =
        { init with current_state := 2
                    trace := [Act.enter_cycle_led, Act.dk_set_led_off 1,
                              Act.dk_set_led_on 2] } :=
  ⟨rfl, (cycle_led_transition_table nrfHeader { init with current_state := 1 } rfl).2.1 rfl⟩

/-- The LEDs after two traces in a row. -/
theorem ledsAfter_append (t w : List Act) :
    ledsAfter (t ++ w) = w.foldl ledStep (ledsAfter t) := by
  simp [ledsAfter, List.foldl_append]

/-- One call of `cycle_led` in a state in `0..3` whose LEDs show `current_state`:
at most one cycle LED is lit after each of its writes, and the LEDs show the new
`current_state` at the end. -/
theorem cycle_led_keeps_leds (dk : DkHeader) (s : Sys) (h4 : dk.DK_LED4 = 3)
    (hlo : 0 ≤ s.current_state) (hhi : s.current_state ≤ 3) (hm : ledsMatch s) :
    ∃ v, (cycle_led dk s).trace = s.trace ++ v ∧
      (∀ j, litCount (ledsAfter (s.trace ++ v.take j)) ≤ 1) ∧
      ledsMatch (cycle_led dk s) := by
  obtain ⟨h1, h2, h3⟩ := hm
  have hc : s.current_state = 0 ∨ s.current_state = 1 ∨ s.current_state = 2 ∨
      s.current_state = 3 := by omega
  refine ⟨_, cycle_led_trace dk s, ?_, ?_⟩
  · intro j
    rcases hc with hc | hc | hc | hc <;> simp only [hc] at h1 h2 h3 ⊢ <;>
      rcases j with _ | _ | _ | _ | j <;>
      simp [ledsAfter_append, ledStep, litCount, h1, h2, h3, h4]
  · unfold ledsMatch
    rw [cycle_led_trace, cycle_led_current_state]
    rcases hc with hc | hc | hc | hc <;> simp only [hc] at h1 h2 h3 ⊢ <;>
      simp [ledsAfter_append, ledStep, h1, h2, h3, h4]

/-- The invariant behind C3, carried through `N` calls. -/
theorem cycle_led_iterate_keeps_leds (dk : DkHeader) (s : Sys) (N : Nat)
    (h4 : dk.DK_LED4 = 3) (h0 : s.current_state = 0) (hm : ledsMatch s)
    (hs : litCount (ledsAfter s.trace) ≤ 1) :
    ∃ w, ((cycle_led dk)^[N] s).trace = s.trace ++ w ∧
      (∀ j, litCount (ledsAfter (s.trace ++ w.take j)) ≤ 1) ∧
      ledsMatch ((cycle_led dk)^[N] s) := by
  induction N with
  | zero => exact ⟨[], by simp, by simpa using hs, by simpa using hm⟩
  | succ n ih =>
    obtain ⟨w, hw, hle, hmn⟩ := ih
    have hcs := iterate_cycle_led_state dk s n h0
    have hlt : n % 4 < 4 := Nat.mod_lt _ (by decide)
    obtain ⟨v, hv, hvle, hmv⟩ :=
      cycle_led_keeps_leds dk ((cycle_led dk)^[n] s) h4 (by omega) (by omega) hmn
    rw [Function.iterate_succ_apply']
    refine ⟨w ++ v, by rw [hv, hw, List.append_assoc], ?_, hmv⟩
    intro j
    rw [List.take_append_eq_append_take]
    rcases Nat.lt_or_ge j w.length with hj | hj
    · have : j - w.length = 0 := by omega
      simpa [this] using hle j
    · rw [List.take_of_length_le hj, ← List.append_assoc, ← hw]
      exact hvle _

/-- C3: starting from `current_state = 0` with the three cycle LEDs off, after every
single platform call made by `N` successive calls of `cycle_led` (so also between the
off-write and the on-write of one call) at most one of the LEDs 1, 2, 3 is lit, and
after the `N`-th call the lit LED is exactly the one named by `current_state`, none
when `current_state = 0`. -/
theorem cycle_led_at_most_one_lit (dk : DkHeader) (s : Sys) (N : Nat)
    (h4 : dk.DK_LED4 = 3) (h0 : s.current_state = 0)
    (hoff : ledsAfter s.trace 1 = false ∧ ledsAfter s.trace 2 = false ∧
      ledsAfter s.trace 3 = false) :
    ∃ w, ((cycle_led dk)^[N] s).trace = s.trace ++ w ∧
      (∀ j, litCount (ledsAfter (s.trace ++ w.take j)) ≤ 1) ∧
      ledsMatch ((cycle_led dk)^[N] s) := by
  obtain ⟨o1, o2, o3⟩ := hoff
  refine cycle_led_iterate_keeps_leds dk s N h4 h0 ?_ ?_
  · simp [ledsMatch, o1, o2, o3, h0]
  · simp [litCount, o1, o2, o3]

/-- C3 at a concrete input: six calls from the initial state. -/
theorem cycle_led_at_most_one_lit_witness :
    nrfHeader.DK_LED4 = 3 ∧ init.current_state = 0 ∧
      (ledsAfter init.trace 1 = false ∧ ledsAfter init.trace 2 = false ∧
        ledsAfter init.trace 3 = false) ∧
      ∃ w, ((cycle_led nrfHeader)^[6] init).trace = init.trace ++ w ∧
        (∀ j, litCount (ledsAfter (init.trace ++ w.take j)) ≤ 1) ∧
        ledsMatch ((cycle_led nrfHeader)^[6] init) :=
  ⟨rfl, rfl, ⟨rfl, rfl, rfl⟩,
    cycle_led_at_most_one_lit nrfHeader init 6 rfl rfl ⟨rfl, rfl, rfl⟩⟩


/-! ## The handlers -/

/-- The press edge of button 1, in any context: the whole resulting state. -/
theorem button_handler_press (dk : DkHeader) (s : Sys) :
    button_handler dk dk.DK_BTN1_MSK dk.DK_BTN1_MSK s =
      { buttons_ctx := { state := dk.DK_BTN1_MSK, long_poll := ATOMIC_FALSE,
                         timer := some BUTTON_LONG_POLL_TIME }
        current_state := s.current_state
        trace := s.trace ++ [Act.log LogMsg.button_1_changed, Act.log LogMsg.button_pressed,
                             Act.k_timer_start BUTTON_LONG_POLL_TIME] } := by
  simp [button_handler, k_timer_start, atomic_set_long_poll, emit]

/-- The release edge of button 1, in any context: the whole resulting state. -/
theorem button_handler_release (dk : DkHeader) (s : Sys) (hm : dk.DK_BTN1_MSK ≠ 0) :
    button_handler dk 0 dk.DK_BTN1_MSK s =
      if s.buttons_ctx.long_poll = ATOMIC_FALSE then
        cycle_led dk
          { s with buttons_ctx := { s.buttons_ctx with timer := none }
                   trace := s.trace ++ [Act.log LogMsg.button_1_changed,
                                        Act.log LogMsg.button_released, Act.k_timer_stop] }
      else
        { s with buttons_ctx := { s.buttons_ctx with timer := none }
                 trace := s.trace ++ [Act.log LogMsg.button_1_changed,
                                      Act.log LogMsg.button_released, Act.k_timer_stop] } := by
  have hm2 : ¬ (0 = dk.DK_BTN1_MSK) := fun h => hm h.symm
  simp [button_handler, k_timer_stop, emit, hm2]

/-- A timer expiry that sees the tracked button held: the whole resulting state. -/
theorem timer_expire_held (dk : DkHeader) (r : Nat) (s : Sys)
    (h : r &&& s.buttons_ctx.state ≠ 0) :
    timer_expire dk r s =
      k_timer_start BUTTON_LONG_POLL_TIME
        (cycle_led dk
          { s with buttons_ctx := { s.buttons_ctx with long_poll := ATOMIC_TRUE, timer := none }
                   trace := s.trace ++ [Act.log LogMsg.long_press_detected] }) := by
  simp [timer_expire, button_timer_handler, h, atomic_set_long_poll, emit]

/-- A timer expiry that sees the tracked button released: only the flag is cleared. -/
theorem timer_expire_released (dk : DkHeader) (r : Nat) (s : Sys)
    (h : r &&& s.buttons_ctx.state = 0) :
    timer_expire dk r s =
      { s with buttons_ctx := { s.buttons_ctx with long_poll := ATOMIC_FALSE, timer := none } } := by
  simp [timer_expire, button_timer_handler, h, atomic_set_long_poll]


/-- What a held expiry does to the call count, `buttons_ctx` and `current_state`. -/
theorem timer_expire_held_facts (dk : DkHeader) (r : Nat) (s : Sys)
    (h : r &&& s.buttons_ctx.state ≠ 0) :
    cycleCalls (timer_expire dk r s) = cycleCalls s + 1 ∧
    (timer_expire dk r s).buttons_ctx =
      { state := s.buttons_ctx.state, long_poll := ATOMIC_TRUE,
        timer := some BUTTON_LONG_POLL_TIME } ∧
    (timer_expire dk r s).current_state = (cycle_led dk s).current_state := by
  rw [timer_expire_held dk r s h]
  refine ⟨?_, ?_, ?_⟩
  · simp [cycleCalls, k_timer_start, cycle_led_trace, List.count_cons]
    split_ifs <;> simp [List.count_cons]
  · simp [k_timer_start, cycle_led_buttons_ctx]
  · simp [k_timer_start, cycle_led_current_state]

/-- What a not-held expiry does to the call count, `buttons_ctx`, `current_state` and trace. -/
theorem timer_expire_released_facts (dk : DkHeader) (r : Nat) (s : Sys)
    (h : r &&& s.buttons_ctx.state = 0) :
    cycleCalls (timer_expire dk r s) = cycleCalls s ∧
    (timer_expire dk r s).buttons_ctx =
      { state := s.buttons_ctx.state, long_poll := ATOMIC_FALSE, timer := none } ∧
    (timer_expire dk r s).current_state = s.current_state ∧
    (timer_expire dk r s).trace = s.trace := by
  rw [timer_expire_released dk r s h]
  simp [cycleCalls]

/-- What the press edge does to the call count, `buttons_ctx` and `current_state`. -/
theorem button_handler_press_facts (dk : DkHeader) (s : Sys) :
    cycleCalls (button_handler dk dk.DK_BTN1_MSK dk.DK_BTN1_MSK s) = cycleCalls s ∧
    (button_handler dk dk.DK_BTN1_MSK dk.DK_BTN1_MSK s).buttons_ctx =
      { state := dk.DK_BTN1_MSK, long_poll := ATOMIC_FALSE,
        timer := some BUTTON_LONG_POLL_TIME } ∧
    (button_handler dk dk.DK_BTN1_MSK dk.DK_BTN1_MSK s).current_state = s.current_state := by
  rw [button_handler_press]
  simp [cycleCalls, List.count_cons]

/-- What the release edge does: the timer is stopped, and `cycle_led` is called exactly
when the long-press flag is `ATOMIC_FALSE`. -/
theorem button_handler_release_facts (dk : DkHeader) (s : Sys) (hm : dk.DK_BTN1_MSK ≠ 0) :
    (button_handler dk 0 dk.DK_BTN1_MSK s).buttons_ctx =
      { s.buttons_ctx with timer := none } ∧
    (s.buttons_ctx.long_poll = ATOMIC_FALSE →
      cycleCalls (button_handler dk 0 dk.DK_BTN1_MSK s) = cycleCalls s + 1 ∧
      (button_handler dk 0 dk.DK_BTN1_MSK s).current_state = (cycle_led dk s).current_state) ∧
    (s.buttons_ctx.long_poll ≠ ATOMIC_FALSE →
      cycleCalls (button_handler dk 0 dk.DK_BTN1_MSK s) = cycleCalls s ∧
      (button_handler dk 0 dk.DK_BTN1_MSK s).current_state = s.current_state) := by
  rw [button_handler_release dk s hm]
  refine ⟨?_, ?_, ?_⟩
  · split_ifs <;> simp [cycle_led_buttons_ctx]
  · intro h
    rw [if_pos h]
    refine ⟨?_, by simp [cycle_led_current_state]⟩
    rw [cycleCalls_cycle_led]
    simp [cycleCalls, List.count_cons]
  · intro h
    rw [if_neg h]
    simp [cycleCalls, List.count_cons]


/-- A run of timer expiries that all see the tracked button held, from a state whose
timer is running: every expiry can occur, each calls `cycle_led` once, and the timer is
running again after each. -/
theorem run_held_expiries (dk : DkHeader) (rs : List Nat) :
    ∀ t : Sys, (∀ r ∈ rs, r &&& t.buttons_ctx.state ≠ 0) →
      t.buttons_ctx.timer = some BUTTON_LONG_POLL_TIME →
      ∃ t1, run dk t (rs.map Event.timer_expiry) = some t1 ∧
        cycleCalls t1 = cycleCalls t + rs.length ∧
        t1.buttons_ctx.state = t.buttons_ctx.state ∧
        t1.buttons_ctx.timer = some BUTTON_LONG_POLL_TIME ∧
        (rs ≠ [] → t1.buttons_ctx.long_poll = ATOMIC_TRUE) ∧
        (∀ n : Nat, t.current_state = ((n % 4 : Nat) : Int) →
          t1.current_state = (((n + rs.length) % 4 : Nat) : Int)) := by
  induction rs with
  | nil =>
    intro t _ ht
    exact ⟨t, rfl, by simp, rfl, ht, by simp, fun n hn => by simpa using hn⟩
  | cons r rs ih =>
    intro t hheld ht
    have hr : r &&& t.buttons_ctx.state ≠ 0 := hheld r (by simp)
    obtain ⟨hc, hb, hs⟩ := timer_expire_held_facts dk r t hr
    have hstate : (timer_expire dk r t).buttons_ctx.state = t.buttons_ctx.state := by rw [hb]
    obtain ⟨t1, hrun, hcalls, hst, htm, hlp, hcs⟩ :=
      ih (timer_expire dk r t)
        (fun x hx => by rw [hstate]; exact hheld x (by simp [hx]))
        (by rw [hb])
    refine ⟨t1, ?_, ?_, ?_, htm, ?_, ?_⟩
    · simp only [List.map_cons, run, step, ht]
      exact hrun
    · rw [hcalls, hc, List.length_cons]; omega
    · rw [hst, hstate]
    · intro _
      rcases rs with _ | ⟨r2, rs2⟩
      · simp only [List.map_nil, run, Option.some.injEq] at hrun
        rw [← hrun, hb]
      · exact hlp (by simp)
    · intro n hn
      rw [hcs (n + 1) (by rw [hs]; exact cycle_led_succ_mod dk t n hn), List.length_cons]
      congr 2
      omega

/-- C4: in every context, the press edge of button 1 followed by its release edge, with
no timer expiry in between, calls `cycle_led` exactly once, at the release and not at
the press; the long-press flag is false after both handlers; the timer is stopped at
the end; and from `current_state = 0` the state stays 0 at the press and is 1 after the
release. -/
theorem short_click_cycles_once (dk : DkHeader) (s : Sys) (hm : dk.DK_BTN1_MSK ≠ 0) :
    ∃ s1 s2, step dk s (pressEdge dk) = some s1 ∧ step dk s1 (releaseEdge dk) = some s2 ∧
      run dk s [pressEdge dk, releaseEdge dk] = some s2 ∧
      cycleCalls s1 = cycleCalls s ∧ cycleCalls s2 = cycleCalls s + 1 ∧
      s1.buttons_ctx.long_poll = ATOMIC_FALSE ∧ s2.buttons_ctx.long_poll = ATOMIC_FALSE ∧
      s2.buttons_ctx.timer = none ∧
      s1.current_state = s.current_state ∧
      s2.current_state = (cycle_led dk s).current_state ∧
      (s.current_state = 0 → s2.current_state = 1) := by
  obtain ⟨pc, pb, ps⟩ := button_handler_press_facts dk s
  have hlp : (button_handler dk dk.DK_BTN1_MSK dk.DK_BTN1_MSK s).buttons_ctx.long_poll
      = ATOMIC_FALSE := by rw [pb]
  obtain ⟨rb, rfire, _⟩ :=
    button_handler_release_facts dk (button_handler dk dk.DK_BTN1_MSK dk.DK_BTN1_MSK s) hm
  obtain ⟨rc, rs⟩ := rfire hlp
  have hcs : (button_handler dk 0 dk.DK_BTN1_MSK
      (button_handler dk dk.DK_BTN1_MSK dk.DK_BTN1_MSK s)).current_state
      = (cycle_led dk s).current_state := by
    rw [rs, cycle_led_current_state, cycle_led_current_state, ps]
  refine ⟨_, _, rfl, rfl, rfl, pc, by rw [rc, pc], hlp, by rw [rb, pb], by rw [rb], ps,
    hcs, ?_⟩
  intro h0
  rw [hcs, cycle_led_current_state, h0]
  simp

/-- C4 at a concrete input: a short click in the initial context. -/
theorem short_click_cycles_once_witness :
    nrfHeader.DK_BTN1_MSK ≠ 0 ∧
    ∃ s1 s2, step nrfHeader init (pressEdge nrfHeader) = some s1 ∧
      step nrfHeader s1 (releaseEdge nrfHeader) = some s2 ∧
      run nrfHeader init [pressEdge nrfHeader, releaseEdge nrfHeader] = some s2 ∧
      cycleCalls s1 = cycleCalls init ∧ cycleCalls s2 = cycleCalls init + 1 ∧
      s1.buttons_ctx.long_poll = ATOMIC_FALSE ∧ s2.buttons_ctx.long_poll = ATOMIC_FALSE ∧
      s2.buttons_ctx.timer = none ∧
      s1.current_state = init.current_state ∧
      s2.current_state = (cycle_led nrfHeader init).current_state ∧
      (init.current_state = 0 → s2.current_state = 1) :=
  ⟨by decide, short_click_cycles_once nrfHeader init (by decide)⟩

/-- C5: in every context, after the press edge of button 1, `k` timer expiries that
each see the button held (`dk_get_buttons() & DK_BTN1_MSK` nonzero) can all occur and
call `cycle_led` exactly `k` times in total, the press itself calling it not at all;
one more such expiry calls it exactly once more; after each expiry the long-press flag
is `ATOMIC_TRUE` and the timer runs again for `BUTTON_LONG_POLL_TIME` (200 ms); and from
`current_state = 0` the state after `k` expiries is `k mod 4`. -/
theorem held_press_cycles_each_expiry (dk : DkHeader) (s : Sys) (rs : List Nat)
    (hheld : ∀ r ∈ rs, r &&& dk.DK_BTN1_MSK ≠ 0) :
    ∃ s1 s2, step dk s (pressEdge dk) = some s1 ∧ cycleCalls s1 = cycleCalls s ∧
      run dk s1 (rs.map Event.timer_expiry) = some s2 ∧
      run dk s (pressEdge dk :: rs.map Event.timer_expiry) = some s2 ∧
      cycleCalls s2 = cycleCalls s + rs.length ∧
      s2.buttons_ctx.timer = some BUTTON_LONG_POLL_TIME ∧
      (rs ≠ [] → s2.buttons_ctx.long_poll = ATOMIC_TRUE) ∧
      (s.current_state = 0 → s2.current_state = ((rs.length % 4 : Nat) : Int)) ∧
      (∀ r, r &&& dk.DK_BTN1_MSK ≠ 0 →
        ∃ s3, step dk s2 (Event.timer_expiry r) = some s3 ∧
          cycleCalls s3 = cycleCalls s2 + 1 ∧
          s3.buttons_ctx.long_poll = ATOMIC_TRUE ∧
          s3.buttons_ctx.timer = some BUTTON_LONG_POLL_TIME) := by
  obtain ⟨pc, pb, ps⟩ := button_handler_press_facts dk s
  have hst : (button_handler dk dk.DK_BTN1_MSK dk.DK_BTN1_MSK s).buttons_ctx.state
      = dk.DK_BTN1_MSK := by rw [pb]
  obtain ⟨s2, h1, h2, h3, h4, h5, h6⟩ :=
    run_held_expiries dk rs (button_handler dk dk.DK_BTN1_MSK dk.DK_BTN1_MSK s)
      (fun r hr => by rw [hst]; exact hheld r hr) (by rw [pb])
  refine ⟨_, s2, rfl, pc, h1, ?_, by rw [h2, pc], h4, h5, ?_, ?_⟩
  · simp only [run, step, pressEdge]
    exact h1
  · intro h0
    have := h6 0 (by rw [ps, h0]; rfl)
    simpa using this
  · intro r hr
    have hr2 : r &&& s2.buttons_ctx.state ≠ 0 := by rw [h3, hst]; exact hr
    obtain ⟨hc, hb, _⟩ := timer_expire_held_facts dk r s2 hr2
    exact ⟨timer_expire dk r s2, by simp only [step, h4], hc, by rw [hb], by rw [hb]⟩

/-- C5 at a concrete input: five held expiries after a press in the initial context;
the states after 0, 1, ..., 5 expiries are 0, 1, 2, 3, 0, 1. -/
theorem held_press_cycles_each_expiry_witness :
    (∀ r ∈ [1, 1, 1, 1, 1], r &&& nrfHeader.DK_BTN1_MSK ≠ 0) ∧
    (∃ s1 s2, step nrfHeader init (pressEdge nrfHeader) = some s1 ∧
      cycleCalls s1 = cycleCalls init ∧
      run nrfHeader s1 ([1, 1, 1, 1, 1].map Event.timer_expiry) = some s2 ∧
      run nrfHeader init (pressEdge nrfHeader :: [1, 1, 1, 1, 1].map Event.timer_expiry)
        = some s2 ∧
      cycleCalls s2 = cycleCalls init + [1, 1, 1, 1, 1].length ∧
      s2.buttons_ctx.timer = some BUTTON_LONG_POLL_TIME ∧
      ([1, 1, 1, 1, 1] ≠ [] → s2.buttons_ctx.long_poll = ATOMIC_TRUE) ∧
      (init.current_state = 0 →
        s2.current_state = (([1, 1, 1, 1, 1].length % 4 : Nat) : Int)) ∧
      (∀ r, r &&& nrfHeader.DK_BTN1_MSK ≠ 0 →
        ∃ s3, step nrfHeader s2 (Event.timer_expiry r) = some s3 ∧
          cycleCalls s3 = cycleCalls s2 + 1 ∧
          s3.buttons_ctx.long_poll = ATOMIC_TRUE ∧
          s3.buttons_ctx.timer = some BUTTON_LONG_POLL_TIME)) ∧
    (List.range 6).map (fun k => (run nrfHeader init
        (pressEdge nrfHeader :: (List.replicate k 1).map Event.timer_expiry)).map
          Sys.current_state)
      = [some 0, some 1, some 2, some 3, some 0, some 1] :=
  ⟨by decide, held_press_cycles_each_expiry nrfHeader init [1, 1, 1, 1, 1] (by decide),
    by decide⟩

/-- The expiry handler never changes the tracked mask. -/
theorem timer_expire_state (dk : DkHeader) (r : Nat) (s : Sys) :
    (timer_expire dk r s).buttons_ctx.state = s.buttons_ctx.state := by
  by_cases h : r &&& s.buttons_ctx.state = 0
  · rw [(timer_expire_released_facts dk r s h).2.1]
  · rw [(timer_expire_held_facts dk r s h).2.1]

/-- A run of timer expiries never changes the tracked mask. -/
theorem run_expiries_state (dk : DkHeader) (rs : List Nat) :
    ∀ t t1 : Sys, run dk t (rs.map Event.timer_expiry) = some t1 →
      t1.buttons_ctx.state = t.buttons_ctx.state := by
  induction rs with
  | nil =>
    intro t t1 h
    simp only [List.map_nil, run, Option.some.injEq] at h
    rw [h]
  | cons r rs ih =>
    intro t t1 h
    simp only [List.map_cons, run, step] at h
    cases ht : t.buttons_ctx.timer with
    | none => simp [ht] at h
    | some d =>
      simp only [ht] at h
      rw [ih _ _ h, timer_expire_state]

/-- After a press edge and any timer expiries the tracked mask is `DK_BTN1_MSK`. -/
theorem run_press_expiries_state (dk : DkHeader) (s s1 : Sys) (rs : List Nat)
    (hrun : run dk s (pressEdge dk :: rs.map Event.timer_expiry) = some s1) :
    s1.buttons_ctx.state = dk.DK_BTN1_MSK := by
  simp only [run, step, pressEdge] at hrun
  rw [run_expiries_state dk rs _ _ hrun, (button_handler_press_facts dk s).2.1]

/-- An edge other than the press edge leaves a stopped timer stopped. -/
theorem button_handler_keeps_timer_stopped (dk : DkHeader) (button_state has_changed : Nat)
    (s : Sys) (hne : Event.edge button_state has_changed ≠ pressEdge dk)
    (ht : s.buttons_ctx.timer = none) :
    (button_handler dk button_state has_changed s).buttons_ctx.timer = none := by
  by_cases h1 : has_changed = dk.DK_BTN1_MSK
  · by_cases h2 : button_state = dk.DK_BTN1_MSK
    · exact absurd (by rw [h1, h2]; rfl) hne
    · by_cases h3 : button_state = 0
      · subst h3
        by_cases h4 : s.buttons_ctx.long_poll = ATOMIC_FALSE <;>
          simp [button_handler, h1, h2, h4, k_timer_stop, emit, cycle_led_buttons_ctx]
      · simp [button_handler, h1, h2, h3, emit, ht]
  · simp [button_handler, h1, emit, ht]

/-- From a state whose timer is stopped, a run without a press edge contains no timer
expiry and ends with the timer stopped. -/
theorem run_without_press (dk : DkHeader) (es : List Event) :
    ∀ t t1 : Sys, t.buttons_ctx.timer = none → pressEdge dk ∉ es →
      run dk t es = some t1 →
      (∀ b, Event.timer_expiry b ∉ es) ∧ t1.buttons_ctx.timer = none := by
  induction es with
  | nil =>
    intro t t1 ht _ h
    simp only [run, Option.some.injEq] at h
    exact ⟨fun b => by simp, by rw [← h]; exact ht⟩
  | cons e es ih =>
    intro t t1 ht hnp h
    have hne : e ≠ pressEdge dk := fun h => hnp (by simp [h])
    have hnp2 : pressEdge dk ∉ es := fun h => hnp (by simp [h])
    cases e with
    | timer_expiry b => simp [run, step, ht] at h
    | edge button_state has_changed =>
      simp only [run, step] at h
      obtain ⟨h1, h2⟩ := ih _ t1
        (button_handler_keeps_timer_stopped dk button_state has_changed t hne ht) hnp2 h
      exact ⟨fun b => by simpa using h1 b, h2⟩

/-! ## The press classifier -/

/-- C6, the code at the failing input: in the initial context a press, a timer expiry
that sees the button held (it calls `cycle_led`, `current_state` becomes 1, and sets the
long-press flag), a timer expiry that sees the button released (it clears the flag and
stops), and then the release edge.  The release handler finds the flag `ATOMIC_FALSE`
and calls `cycle_led` a second time, `current_state` becomes 2, although a long press
was detected in this hold.  When the release edge is handled right after the held
expiry instead, it makes no call: one call in all and `current_state` stays 1. -/
theorem release_after_long_press_race_cycles :
    (run nrfHeader init [pressEdge nrfHeader]).map cycleCalls = some 0 ∧
    (run nrfHeader init [pressEdge nrfHeader, Event.timer_expiry 1]).map cycleCalls
      = some 1 ∧
    (run nrfHeader init [pressEdge nrfHeader, Event.timer_expiry 1]).map
      (fun s => s.buttons_ctx.long_poll) = some ATOMIC_TRUE ∧
    (run nrfHeader init [pressEdge nrfHeader, Event.timer_expiry 1]).map
      Sys.current_state = some 1 ∧
    (run nrfHeader init [pressEdge nrfHeader, Event.timer_expiry 1,
      Event.timer_expiry 0]).map cycleCalls = some 1 ∧
    (run nrfHeader init [pressEdge nrfHeader, Event.timer_expiry 1,
      Event.timer_expiry 0]).map (fun s => s.buttons_ctx.long_poll) = some ATOMIC_FALSE ∧
    (run nrfHeader init [pressEdge nrfHeader, Event.timer_expiry 1,
      Event.timer_expiry 0, releaseEdge nrfHeader]).map cycleCalls = some 2 ∧
    (run nrfHeader init [pressEdge nrfHeader, Event.timer_expiry 1,
      Event.timer_expiry 0, releaseEdge nrfHeader]).map Sys.current_state = some 2 ∧
    (run nrfHeader init [pressEdge nrfHeader, Event.timer_expiry 1,
      releaseEdge nrfHeader]).map cycleCalls = some 1 ∧
    (run nrfHeader init [pressEdge nrfHeader, Event.timer_expiry 1,
      releaseEdge nrfHeader]).map Sys.current_state = some 1 := by
  decide

/-- The ordering in which the long-press flag does its work: in every context, when the
timer expiry handled just before the release edge called `cycle_led` (it saw the tracked
button held), the release edge handler does not call `cycle_led` and leaves
`current_state` alone. -/
theorem release_after_firing_expiry_is_silent (dk : DkHeader) (s1 s2 : Sys) (r : Nat)
    (hm : dk.DK_BTN1_MSK ≠ 0)
    (hstep : step dk s1 (Event.timer_expiry r) = some s2)
    (hfired : cycleCalls s2 = cycleCalls s1 + 1) :
    ∃ s3, step dk s2 (releaseEdge dk) = some s3 ∧ cycleCalls s3 = cycleCalls s2 ∧
      s3.current_state = s2.current_state := by
  have hs2 : s2 = timer_expire dk r s1 := by
    simp only [step] at hstep
    cases ht : s1.buttons_ctx.timer with
    | none => simp [ht] at hstep
    | some d =>
      simp only [ht, Option.some.injEq] at hstep
      exact hstep.symm
  have hflag : s2.buttons_ctx.long_poll ≠ ATOMIC_FALSE := by
    by_cases h : r &&& s1.buttons_ctx.state = 0
    · have := (timer_expire_released_facts dk r s1 h).1
      rw [← hs2] at this
      omega
    · rw [hs2, (timer_expire_held_facts dk r s1 h).2.1]
      simp [ATOMIC_TRUE, ATOMIC_FALSE]
  obtain ⟨_, _, hsilent⟩ := button_handler_release_facts dk s2 hm
  exact ⟨_, rfl, (hsilent hflag).1, (hsilent hflag).2⟩

/-- The same at a concrete input: press, one held expiry, release. -/
theorem release_after_firing_expiry_is_silent_witness :
    nrfHeader.DK_BTN1_MSK ≠ 0 ∧
    step nrfHeader (button_handler nrfHeader 1 1 init) (Event.timer_expiry 1)
      = some (timer_expire nrfHeader 1 (button_handler nrfHeader 1 1 init)) ∧
    cycleCalls (timer_expire nrfHeader 1 (button_handler nrfHeader 1 1 init))
      = cycleCalls (button_handler nrfHeader 1 1 init) + 1 ∧
    ∃ s3, step nrfHeader (timer_expire nrfHeader 1 (button_handler nrfHeader 1 1 init))
        (releaseEdge nrfHeader) = some s3 ∧
      cycleCalls s3 = cycleCalls (timer_expire nrfHeader 1 (button_handler nrfHeader 1 1 init)) ∧
      s3.current_state
        = (timer_expire nrfHeader 1 (button_handler nrfHeader 1 1 init)).current_state :=
  ⟨by decide, by decide, by decide,
    release_after_firing_expiry_is_silent nrfHeader (button_handler nrfHeader 1 1 init)
      (timer_expire nrfHeader 1 (button_handler nrfHeader 1 1 init)) 1
      (by decide) (by decide) (by decide)⟩

/-- C7: in every hold session (a press edge, timer expiries, a last timer expiry, the
release edge) the last expiry and the release never both call `cycle_led`: when the
last expiry sees button 1 held it calls `cycle_led` and the release does not; when it
sees button 1 released the expiry does not call it.  Together they call it at most
once. -/
theorem last_expiry_and_release_fire_once (dk : DkHeader) (s s1 : Sys) (rs : List Nat)
    (r : Nat) (hm : dk.DK_BTN1_MSK ≠ 0)
    (hrun : run dk s (pressEdge dk :: rs.map Event.timer_expiry) = some s1)
    (harmed : s1.buttons_ctx.timer ≠ none) :
    ∃ s2 s3, step dk s1 (Event.timer_expiry r) = some s2 ∧
      step dk s2 (releaseEdge dk) = some s3 ∧
      (r &&& dk.DK_BTN1_MSK ≠ 0 →
        cycleCalls s2 = cycleCalls s1 + 1 ∧ cycleCalls s3 = cycleCalls s2) ∧
      (r &&& dk.DK_BTN1_MSK = 0 → cycleCalls s2 = cycleCalls s1) ∧
      cycleCalls s3 ≤ cycleCalls s1 + 1 := by
  have hst : s1.buttons_ctx.state = dk.DK_BTN1_MSK := run_press_expiries_state dk s s1 rs hrun
  have hstep : step dk s1 (Event.timer_expiry r) = some (timer_expire dk r s1) := by
    simp only [step]
    cases ht : s1.buttons_ctx.timer with
    | none => exact absurd ht harmed
    | some d => rfl
  obtain ⟨_, hclick, hsilent⟩ := button_handler_release_facts dk (timer_expire dk r s1) hm
  have hheld : r &&& dk.DK_BTN1_MSK ≠ 0 →
      cycleCalls (timer_expire dk r s1) = cycleCalls s1 + 1 ∧
      cycleCalls (button_handler dk 0 dk.DK_BTN1_MSK (timer_expire dk r s1))
        = cycleCalls (timer_expire dk r s1) := by
    intro h
    obtain ⟨hc, hb, _⟩ := timer_expire_held_facts dk r s1 (by rw [hst]; exact h)
    refine ⟨hc, (hsilent ?_).1⟩
    rw [hb]
    simp [ATOMIC_TRUE, ATOMIC_FALSE]
  have hrel : r &&& dk.DK_BTN1_MSK = 0 →
      cycleCalls (timer_expire dk r s1) = cycleCalls s1 ∧
      cycleCalls (button_handler dk 0 dk.DK_BTN1_MSK (timer_expire dk r s1))
        = cycleCalls (timer_expire dk r s1) + 1 := by
    intro h
    obtain ⟨hc, hb, _⟩ := timer_expire_released_facts dk r s1 (by rw [hst]; exact h)
    exact ⟨hc, (hclick (by rw [hb])).1⟩
  refine ⟨_, _, hstep, rfl, hheld, fun h => (hrel h).1, ?_⟩
  by_cases h : r &&& dk.DK_BTN1_MSK = 0
  · rw [(hrel h).2, (hrel h).1]
  · rw [(hheld h).2, (hheld h).1]

/-- C7 at a concrete input: press, one held expiry, then a last expiry that sees the
button released, in the initial context. -/
theorem last_expiry_and_release_fire_once_witness :
    nrfHeader.DK_BTN1_MSK ≠ 0 ∧
    run nrfHeader init (pressEdge nrfHeader :: [1].map Event.timer_expiry)
      = some (timer_expire nrfHeader 1 (button_handler nrfHeader 1 1 init)) ∧
    (timer_expire nrfHeader 1 (button_handler nrfHeader 1 1 init)).buttons_ctx.timer ≠ none ∧
    ∃ s2 s3, step nrfHeader (timer_expire nrfHeader 1 (button_handler nrfHeader 1 1 init))
        (Event.timer_expiry 0) = some s2 ∧
      step nrfHeader s2 (releaseEdge nrfHeader) = some s3 ∧
      (0 &&& nrfHeader.DK_BTN1_MSK ≠ 0 →
        cycleCalls s2
          = cycleCalls (timer_expire nrfHeader 1 (button_handler nrfHeader 1 1 init)) + 1 ∧
        cycleCalls s3 = cycleCalls s2) ∧
      (0 &&& nrfHeader.DK_BTN1_MSK = 0 →
        cycleCalls s2
          = cycleCalls (timer_expire nrfHeader 1 (button_handler nrfHeader 1 1 init))) ∧
      cycleCalls s3
        ≤ cycleCalls (timer_expire nrfHeader 1 (button_handler nrfHeader 1 1 init)) + 1 :=
  ⟨by decide, by decide, by decide,
    last_expiry_and_release_fire_once nrfHeader init
      (timer_expire nrfHeader 1 (button_handler nrfHeader 1 1 init)) [1] 0
      (by decide) (by decide) (by decide)⟩

/-- C8: in every context, after `button_handler` has handled the release edge of
button 1 the timer is stopped, no timer expiry can occur in that state, and any run of
events from there that contains no press edge of button 1 contains no timer expiry and
ends with the timer still stopped. -/
theorem release_stops_timer (dk : DkHeader) (s : Sys) (hm : dk.DK_BTN1_MSK ≠ 0) :
    (button_handler dk 0 dk.DK_BTN1_MSK s).buttons_ctx.timer = none ∧
    (∀ b, step dk (button_handler dk 0 dk.DK_BTN1_MSK s) (Event.timer_expiry b) = none) ∧
    (∀ (es : List Event) (s2 : Sys), pressEdge dk ∉ es →
      run dk (button_handler dk 0 dk.DK_BTN1_MSK s) es = some s2 →
      (∀ b, Event.timer_expiry b ∉ es) ∧ s2.buttons_ctx.timer = none) := by
  have ht : (button_handler dk 0 dk.DK_BTN1_MSK s).buttons_ctx.timer = none := by
    rw [(button_handler_release_facts dk s hm).1]
  refine ⟨ht, fun b => by simp only [step, ht], fun es s2 hnp hrun => ?_⟩
  exact run_without_press dk es _ s2 ht hnp hrun

/-- C8 at a concrete input: release while the timer runs, then two further edges. -/
theorem release_stops_timer_witness :
    nrfHeader.DK_BTN1_MSK ≠ 0 ∧
    (button_handler nrfHeader 1 1 init).buttons_ctx.timer = some 200 ∧
    run nrfHeader (button_handler nrfHeader 0 nrfHeader.DK_BTN1_MSK
        (button_handler nrfHeader 1 1 init)) [Event.edge 0 1, Event.edge 2 2]
      = some (button_handler nrfHeader 2 2 (button_handler nrfHeader 0 1
          (button_handler nrfHeader 0 1 (button_handler nrfHeader 1 1 init)))) ∧
    (∀ b, Event.timer_expiry b ∉ [Event.edge 0 1, Event.edge 2 2]) ∧
    (button_handler nrfHeader 2 2 (button_handler nrfHeader 0 1
      (button_handler nrfHeader 0 1 (button_handler nrfHeader 1 1 init)))).buttons_ctx.timer
        = none :=
  ⟨by decide, by decide, by decide,
    ((release_stops_timer nrfHeader (button_handler nrfHeader 1 1 init) (by decide)).2.2
      [Event.edge 0 1, Event.edge 2 2]
      (button_handler nrfHeader 2 2 (button_handler nrfHeader 0 1
        (button_handler nrfHeader 0 1 (button_handler nrfHeader 1 1 init))))
      (by decide) (by decide)).1,
    ((release_stops_timer nrfHeader (button_handler nrfHeader 1 1 init) (by decide)).2.2
      [Event.edge 0 1, Event.edge 2 2]
      (button_handler nrfHeader 2 2 (button_handler nrfHeader 0 1
        (button_handler nrfHeader 0 1 (button_handler nrfHeader 1 1 init))))
      (by decide) (by decide)).2⟩

/-- C9: in every context, an edge event `(button_state, has_changed)` that is neither
the press edge `(DK_BTN1_MSK, DK_BTN1_MSK)` nor the release edge `(0, DK_BTN1_MSK)` only
logs one message: `buttons_ctx` (tracked mask, long-press flag, timer) and
`current_state` are unchanged, no LED is written and `cycle_led` is not called. -/
theorem button_handler_drops_other_edges (dk : DkHeader) (s : Sys)
    (button_state has_changed : Nat)
    (hpress : ¬ (button_state = dk.DK_BTN1_MSK ∧ has_changed = dk.DK_BTN1_MSK))
    (hrelease : ¬ (button_state = 0 ∧ has_changed = dk.DK_BTN1_MSK)) :
    button_handler dk button_state has_changed s =
      { s with trace := s.trace ++
          [Act.log (if has_changed = dk.DK_BTN1_MSK then LogMsg.button_1_changed
                    else LogMsg.unhandled_button)] } ∧
    (button_handler dk button_state has_changed s).buttons_ctx = s.buttons_ctx ∧
    (button_handler dk button_state has_changed s).current_state = s.current_state ∧
    cycleCalls (button_handler dk button_state has_changed s) = cycleCalls s ∧
    ledsAfter (button_handler dk button_state has_changed s).trace = ledsAfter s.trace := by
  have heq : button_handler dk button_state has_changed s =
      { s with trace := s.trace ++
          [Act.log (if has_changed = dk.DK_BTN1_MSK then LogMsg.button_1_changed
                    else LogMsg.unhandled_button)] } := by
    by_cases h1 : has_changed = dk.DK_BTN1_MSK
    · have h2 : button_state ≠ dk.DK_BTN1_MSK := fun h => hpress ⟨h, h1⟩
      have h3 : button_state ≠ 0 := fun h => hrelease ⟨h, h1⟩
      simp [button_handler, h1, h2, h3, emit]
    · simp [button_handler, h1, emit]
  refine ⟨heq, ?_, ?_, ?_, ?_⟩ <;> rw [heq]
  · simp [cycleCalls, List.count_cons]
  · simp [ledsAfter_append, ledStep]

/-- C9 at a concrete input: an edge of another button while button 1's timer runs. -/
theorem button_handler_drops_other_edges_witness :
    ¬ (3 = nrfHeader.DK_BTN1_MSK ∧ 2 = nrfHeader.DK_BTN1_MSK) ∧
    ¬ (3 = 0 ∧ 2 = nrfHeader.DK_BTN1_MSK) ∧
    button_handler nrfHeader 3 2 (button_handler nrfHeader 1 1 init) =
      { button_handler nrfHeader 1 1 init with
        trace := (button_handler nrfHeader 1 1 init).trace ++
          [Act.log LogMsg.unhandled_button] } :=
  ⟨by decide, by decide,
    (button_handler_drops_other_edges nrfHeader (button_handler nrfHeader 1 1 init) 3 2
      (by decide) (by decide)).1⟩

/-- C10, counterexample: a release edge of button 1 delivered in the initial context,
with no press before it, calls `cycle_led` and moves `current_state` from 0 to 1; a
second release edge right after it calls `cycle_led` again. -/
theorem release_without_press_counterexample :
    cycleCalls init = 0 ∧ init.current_state = 0 ∧
    cycleCalls (button_handler nrfHeader 0 nrfHeader.DK_BTN1_MSK init) = 1 ∧
    (button_handler nrfHeader 0 nrfHeader.DK_BTN1_MSK init).current_state = 1 ∧
    cycleCalls (button_handler nrfHeader 0 nrfHeader.DK_BTN1_MSK
      (button_handler nrfHeader 0 nrfHeader.DK_BTN1_MSK init)) = 2 ∧
    (button_handler nrfHeader 0 nrfHeader.DK_BTN1_MSK
      (button_handler nrfHeader 0 nrfHeader.DK_BTN1_MSK init)).current_state = 2 := by
  decide

/-- C10, amended: a release edge of button 1 causes no action (no call of `cycle_led`,
`current_state` unchanged) exactly when the long-press flag is set when it arrives;
when the flag is `ATOMIC_FALSE` the release calls `cycle_led` once, whether or not a
press of button 1 came before it. -/
theorem release_action_depends_on_flag_only (dk : DkHeader) (s : Sys)
    (hm : dk.DK_BTN1_MSK ≠ 0) :
    (s.buttons_ctx.long_poll ≠ ATOMIC_FALSE →
      cycleCalls (button_handler dk 0 dk.DK_BTN1_MSK s) = cycleCalls s ∧
      (button_handler dk 0 dk.DK_BTN1_MSK s).current_state = s.current_state) ∧
    (s.buttons_ctx.long_poll = ATOMIC_FALSE →
      cycleCalls (button_handler dk 0 dk.DK_BTN1_MSK s) = cycleCalls s + 1 ∧
      (button_handler dk 0 dk.DK_BTN1_MSK s).current_state
        = (cycle_led dk s).current_state) :=
  ⟨(button_handler_release_facts dk s hm).2.2, (button_handler_release_facts dk s hm).2.1⟩

/-- C10, amended, at a concrete input: the release edge in the initial context and the
release edge after a long press. -/
theorem release_action_depends_on_flag_only_witness :
    nrfHeader.DK_BTN1_MSK ≠ 0 ∧
    cycleCalls (button_handler nrfHeader 0 nrfHeader.DK_BTN1_MSK init) = cycleCalls init + 1 ∧
    cycleCalls (button_handler nrfHeader 0 nrfHeader.DK_BTN1_MSK
        (timer_expire nrfHeader 1 (button_handler nrfHeader 1 1 init)))
      = cycleCalls (timer_expire nrfHeader 1 (button_handler nrfHeader 1 1 init)) :=
  ⟨by decide,
    ((release_action_depends_on_flag_only nrfHeader init (by decide)).2 (by decide)).1,
    ((release_action_depends_on_flag_only nrfHeader
      (timer_expire nrfHeader 1 (button_handler nrfHeader 1 1 init)) (by decide)).1
        (by decide)).1⟩

/-! ## Single handler steps -/

/-- C13: in every context, after `button_handler` has handled the press edge of button 1
the tracked mask is `DK_BTN1_MSK`, the long-press flag is `ATOMIC_FALSE` and the timer
runs for `BUTTON_LONG_POLL_TIME` = 200 ms; `current_state` and every LED are unchanged,
the handler makes no LED write and does not call `cycle_led`. -/
theorem press_arms_timer_only (dk : DkHeader) (s : Sys) :
    (button_handler dk dk.DK_BTN1_MSK dk.DK_BTN1_MSK s).buttons_ctx =
      { state := dk.DK_BTN1_MSK, long_poll := ATOMIC_FALSE, timer := some 200 } ∧
    (button_handler dk dk.DK_BTN1_MSK dk.DK_BTN1_MSK s).current_state = s.current_state ∧
    (button_handler dk dk.DK_BTN1_MSK dk.DK_BTN1_MSK s).trace =
      s.trace ++ [Act.log LogMsg.button_1_changed, Act.log LogMsg.button_pressed,
                  Act.k_timer_start 200] ∧
    ledsAfter (button_handler dk dk.DK_BTN1_MSK dk.DK_BTN1_MSK s).trace = ledsAfter s.trace ∧
    cycleCalls (button_handler dk dk.DK_BTN1_MSK dk.DK_BTN1_MSK s) = cycleCalls s := by
  rw [button_handler_press]
  refine ⟨rfl, rfl, rfl, ?_, ?_⟩
  · simp [ledsAfter_append, ledStep]
  · simp [cycleCalls, List.count_cons]

/-- C14: in every context in which `dk_get_buttons() & buttons_ctx.state` is zero,
`button_timer_handler` only sets the long-press flag to `ATOMIC_FALSE`: the timer is not
started, `cycle_led` is not called, nothing is added to the trace, and `current_state`,
the LEDs and the tracked mask are unchanged; after the expiry the timer is stopped. -/
theorem expiry_not_held_clears_flag (dk : DkHeader) (s : Sys) (buttons : Nat)
    (hrel : buttons &&& s.buttons_ctx.state = 0) :
    button_timer_handler dk buttons s =
      { s with buttons_ctx := { s.buttons_ctx with long_poll := ATOMIC_FALSE } } ∧
    (button_timer_handler dk buttons s).buttons_ctx.long_poll = ATOMIC_FALSE ∧
    (button_timer_handler dk buttons s).buttons_ctx.timer = s.buttons_ctx.timer ∧
    (button_timer_handler dk buttons s).buttons_ctx.state = s.buttons_ctx.state ∧
    (button_timer_handler dk buttons s).current_state = s.current_state ∧
    (button_timer_handler dk buttons s).trace = s.trace ∧
    cycleCalls (button_timer_handler dk buttons s) = cycleCalls s ∧
    (timer_expire dk buttons s).buttons_ctx.timer = none := by
  have heq : button_timer_handler dk buttons s =
      { s with buttons_ctx := { s.buttons_ctx with long_poll := ATOMIC_FALSE } } := by
    simp [button_timer_handler, hrel, atomic_set_long_poll]
  refine ⟨heq, ?_, ?_, ?_, ?_, ?_, ?_, ?_⟩
  · rw [heq]
  · rw [heq]
  · rw [heq]
  · rw [heq]
  · rw [heq]
  · rw [heq]; rfl
  · rw [(timer_expire_released_facts dk buttons s hrel).2.1]

/-- C14 at a concrete input: the expiry after a press when the button reads released. -/
theorem expiry_not_held_clears_flag_witness :
    0 &&& (button_handler nrfHeader 1 1 init).buttons_ctx.state = 0 ∧
    button_timer_handler nrfHeader 0 (button_handler nrfHeader 1 1 init) =
      { button_handler nrfHeader 1 1 init with
        buttons_ctx := { (button_handler nrfHeader 1 1 init).buttons_ctx with
                         long_poll := ATOMIC_FALSE } } :=
  ⟨by decide,
    (expiry_not_held_clears_flag nrfHeader (button_handler nrfHeader 1 1 init) 0
      (by decide)).1⟩

/-! ## Whole hold sessions -/

/-- From a state in which the timer runs and the tracked mask is `m`: timer expiries
with readings `rs` followed by the release edge, when they can all occur, call
`cycle_led` once per expiry, or, without any expiry, once exactly when the long-press
flag is `ATOMIC_FALSE`. -/
theorem run_expiries_release_calls (dk : DkHeader) (hm : dk.DK_BTN1_MSK ≠ 0)
    (rs : List Nat) :
    ∀ t t3 : Sys, t.buttons_ctx.timer ≠ none →
      run dk t (rs.map Event.timer_expiry ++ [releaseEdge dk]) = some t3 →
      cycleCalls t3 = cycleCalls t +
        (if rs = [] then (if t.buttons_ctx.long_poll = ATOMIC_FALSE then 1 else 0)
         else rs.length) := by
  induction rs with
  | nil =>
    intro t t3 _ hrun
    simp only [List.map_nil, List.nil_append, run, step, releaseEdge,
      Option.some.injEq] at hrun
    obtain ⟨_, hclick, hsilent⟩ := button_handler_release_facts dk t hm
    rw [← hrun]
    by_cases hf : t.buttons_ctx.long_poll = ATOMIC_FALSE
    · simp [hf, (hclick hf).1]
    · simp [hf, (hsilent hf).1]
  | cons r rs ih =>
    intro t t3 harmed hrun
    have hstep : step dk t (Event.timer_expiry r) = some (timer_expire dk r t) := by
      simp only [step]
      cases ht : t.buttons_ctx.timer with
      | none => exact absurd ht harmed
      | some d => rfl
    simp only [List.map_cons, List.cons_append, run, hstep] at hrun
    by_cases hheld : r &&& t.buttons_ctx.state = 0
    · obtain ⟨hc, hb, _, _⟩ := timer_expire_released_facts dk r t hheld
      rcases rs with _ | ⟨r2, rs2⟩
      · simp only [List.map_nil, List.nil_append, run, step, releaseEdge,
          Option.some.injEq] at hrun
        obtain ⟨_, hclick, _⟩ := button_handler_release_facts dk (timer_expire dk r t) hm
        rw [← hrun, (hclick (by rw [hb])).1, hc]
        simp
      · have hnone : (timer_expire dk r t).buttons_ctx.timer = none := by rw [hb]
        simp [run, step, hnone] at hrun
    · obtain ⟨hc, hb, _⟩ := timer_expire_held_facts dk r t hheld
      have h2 := ih (timer_expire dk r t) t3 (by rw [hb]; simp) hrun
      rw [h2, hc]
      have hflag : (timer_expire dk r t).buttons_ctx.long_poll ≠ ATOMIC_FALSE := by
        rw [hb]; simp [ATOMIC_TRUE, ATOMIC_FALSE]
      rcases rs with _ | ⟨r2, rs2⟩
      · simp [hflag]
      · simp; omega

/-- C16: a hold session (the press edge of button 1, then `n` timer expiries with any
readings, each occurring while the timer runs, then the release edge) calls `cycle_led`
exactly `max 1 n` times: once when there is no expiry, otherwise once per expiry,
whatever the last expiry saw. -/
theorem hold_session_call_count (dk : DkHeader) (s s3 : Sys) (rs : List Nat)
    (hm : dk.DK_BTN1_MSK ≠ 0)
    (hrun : run dk s (pressEdge dk :: (rs.map Event.timer_expiry ++ [releaseEdge dk]))
      = some s3) :
    cycleCalls s3 = cycleCalls s + max 1 rs.length := by
  simp only [run, step, pressEdge] at hrun
  obtain ⟨pc, pb, _⟩ := button_handler_press_facts dk s
  have h := run_expiries_release_calls dk hm rs
    (button_handler dk dk.DK_BTN1_MSK dk.DK_BTN1_MSK s) s3 (by rw [pb]; simp) hrun
  rw [h, pc, pb]
  rcases rs with _ | ⟨r, rs⟩
  · simp
  · simp

/-- C16 at concrete inputs: in the initial context, a session of three expiries of which
the last sees the button released, and a session without expiry. -/
theorem hold_session_call_count_witness :
    nrfHeader.DK_BTN1_MSK ≠ 0 ∧
    (run nrfHeader init (pressEdge nrfHeader ::
        ([1, 1, 0].map Event.timer_expiry ++ [releaseEdge nrfHeader]))).map cycleCalls
      = some 3 ∧
    (run nrfHeader init (pressEdge nrfHeader ::
        (([] : List Nat).map Event.timer_expiry ++ [releaseEdge nrfHeader]))).map cycleCalls
      = some 1 ∧
    cycleCalls (button_handler nrfHeader 0 1 (timer_expire nrfHeader 0
        (timer_expire nrfHeader 1 (timer_expire nrfHeader 1
          (button_handler nrfHeader 1 1 init)))))
      = cycleCalls init + max 1 [1, 1, 0].length :=
  ⟨by decide, by decide, by decide,
    hold_session_call_count nrfHeader init
      (button_handler nrfHeader 0 1 (timer_expire nrfHeader 0
        (timer_expire nrfHeader 1 (timer_expire nrfHeader 1
          (button_handler nrfHeader 1 1 init)))))
      [1, 1, 0] (by decide) (by decide)⟩

/-! ## The timer follows the button -/

/-- Any event keeps the invariant that a running timer was started for button 1. -/
theorem step_keeps_tracked_mask (dk : DkHeader) (s s1 : Sys) (e : Event)
    (hinv : s.buttons_ctx.timer ≠ none → s.buttons_ctx.state = dk.DK_BTN1_MSK)
    (hstep : step dk s e = some s1) :
    s1.buttons_ctx.timer ≠ none → s1.buttons_ctx.state = dk.DK_BTN1_MSK := by
  cases e with
  | timer_expiry b =>
    simp only [step] at hstep
    cases ht : s.buttons_ctx.timer with
    | none => simp [ht] at hstep
    | some d =>
      simp only [ht, Option.some.injEq] at hstep
      intro _
      rw [← hstep, timer_expire_state]
      exact hinv (by rw [ht]; simp)
  | edge button_state has_changed =>
    simp only [step, Option.some.injEq] at hstep
    rw [← hstep]
    by_cases h1 : has_changed = dk.DK_BTN1_MSK
    · by_cases h2 : button_state = dk.DK_BTN1_MSK
      · intro _
        rw [h1, h2, (button_handler_press_facts dk s).2.1]
      · by_cases h3 : button_state = 0
        · subst h3
          intro harmed
          exfalso
          apply harmed
          by_cases h4 : s.buttons_ctx.long_poll = ATOMIC_FALSE <;>
            simp [button_handler, h1, h2, h4, k_timer_stop, emit, cycle_led_buttons_ctx]
        · simpa [button_handler, h1, h2, h3, emit] using hinv
    · simpa [button_handler, h1, emit] using hinv

/-- The invariant holds after every run from a state whose timer is stopped. -/
theorem run_keeps_tracked_mask (dk : DkHeader) (es : List Event) :
    ∀ s s1 : Sys,
      (s.buttons_ctx.timer ≠ none → s.buttons_ctx.state = dk.DK_BTN1_MSK) →
      run dk s es = some s1 →
      (s1.buttons_ctx.timer ≠ none → s1.buttons_ctx.state = dk.DK_BTN1_MSK) := by
  induction es with
  | nil =>
    intro s s1 hinv hrun
    simp only [run, Option.some.injEq] at hrun
    rw [← hrun]
    exact hinv
  | cons e es ih =>
    intro s s1 hinv hrun
    simp only [run] at hrun
    cases hs : step dk s e with
    | none => simp [hs] at hrun
    | some s2 =>
      simp only [hs] at hrun
      exact ih s2 s1 (step_keeps_tracked_mask dk s s2 e hinv hs) hrun

/-- C15: in every state reached from a context whose timer is stopped (the initial
context is one) by events that can occur, after the handler of a press edge, a release
edge or a timer expiry has run the timer is running if and only if the button state that
handler looked at (`button_state` of the edge, `dk_get_buttons()` at the expiry) has the
bit of the tracked button, button 1, set. -/
theorem timer_runs_iff_button_held (dk : DkHeader) (s0 s1 s2 : Sys) (es : List Event)
    (e : Event) (hm : dk.DK_BTN1_MSK ≠ 0)
    (h0 : s0.buttons_ctx.timer = none)
    (hrun : run dk s0 es = some s1)
    (he : recognised dk e)
    (hstep : step dk s1 e = some s2) :
    (s2.buttons_ctx.timer ≠ none ↔ e.observed &&& dk.DK_BTN1_MSK ≠ 0) ∧
    (s2.buttons_ctx.timer ≠ none ↔ e.observed &&& s2.buttons_ctx.state ≠ 0) := by
  have hinv : s1.buttons_ctx.timer ≠ none → s1.buttons_ctx.state = dk.DK_BTN1_MSK :=
    run_keeps_tracked_mask dk es s0 s1 (fun h => absurd h0 h) hrun
  rcases he with he | he | ⟨b, he⟩
  · subst he
    simp only [step, pressEdge, Option.some.injEq] at hstep
    have hb := (button_handler_press_facts dk s1).2.1
    rw [hstep] at hb
    simp [hb, pressEdge, Event.observed, Nat.and_self, hm]
  · subst he
    simp only [step, releaseEdge, Option.some.injEq] at hstep
    have hb := (button_handler_release_facts dk s1 hm).1
    rw [hstep] at hb
    simp [hb, releaseEdge, Event.observed]
  · subst he
    simp only [step] at hstep
    cases ht : s1.buttons_ctx.timer with
    | none => simp [ht] at hstep
    | some d =>
      simp only [ht, Option.some.injEq] at hstep
      have hst : s1.buttons_ctx.state = dk.DK_BTN1_MSK := hinv (by rw [ht]; simp)
      by_cases hheld : b &&& s1.buttons_ctx.state = 0
      · have hb := (timer_expire_released_facts dk b s1 hheld).2.1
        rw [hstep] at hb
        have hheld2 : b &&& dk.DK_BTN1_MSK = 0 := by rw [← hst]; exact hheld
        simp [hb, Event.observed, hheld, hheld2]
      · have hb := (timer_expire_held_facts dk b s1 hheld).2.1
        rw [hstep] at hb
        have hheld2 : ¬ b &&& dk.DK_BTN1_MSK = 0 := by rw [← hst]; exact hheld
        simp [hb, Event.observed, hheld, hheld2]

/-- C15 at a concrete input: after a press and a held expiry in the initial context, an
expiry that reads the button released leaves the timer stopped. -/
theorem timer_runs_iff_button_held_witness :
    nrfHeader.DK_BTN1_MSK ≠ 0 ∧ init.buttons_ctx.timer = none ∧
    run nrfHeader init [pressEdge nrfHeader, Event.timer_expiry 1]
      = some (timer_expire nrfHeader 1 (button_handler nrfHeader 1 1 init)) ∧
    recognised nrfHeader (Event.timer_expiry 0) ∧
    step nrfHeader (timer_expire nrfHeader 1 (button_handler nrfHeader 1 1 init))
        (Event.timer_expiry 0)
      = some (timer_expire nrfHeader 0
          (timer_expire nrfHeader 1 (button_handler nrfHeader 1 1 init))) ∧
    ((timer_expire nrfHeader 0
        (timer_expire nrfHeader 1 (button_handler nrfHeader 1 1 init))).buttons_ctx.timer
        ≠ none ↔
      (Event.timer_expiry 0).observed &&& nrfHeader.DK_BTN1_MSK ≠ 0) :=
  ⟨by decide, rfl, by decide, Or.inr (Or.inr ⟨0, rfl⟩), by decide,
    (timer_runs_iff_button_held nrfHeader init
      (timer_expire nrfHeader 1 (button_handler nrfHeader 1 1 init))
      (timer_expire nrfHeader 0
        (timer_expire nrfHeader 1 (button_handler nrfHeader 1 1 init)))
      [pressEdge nrfHeader, Event.timer_expiry 1] (Event.timer_expiry 0)
      (by decide) rfl (by decide) (Or.inr (Or.inr ⟨0, rfl⟩)) (by decide)).1⟩

/-! ## The heartbeat and the handlers -/

/-- A platform call that is not one of the heartbeat loop's does not write `DK_LED1`. -/
theorem writesLed_of_not_heartbeatAct (dk : DkHeader) (a : Act)
    (h : heartbeatAct dk a = false) : writesLed dk.DK_LED1 a = false := by
  cases a <;> simp_all [heartbeatAct, writesLed]

/-- Platform calls that do not write LED `i` leave LED `i` as it was. -/
theorem foldl_ledStep_unwritten (i : Int) (w : List Act) :
    ∀ leds : Int → Bool, (∀ a ∈ w, writesLed i a = false) →
      w.foldl ledStep leds i = leds i := by
  induction w with
  | nil => intro leds _; rfl
  | cons a w ih =>
    intro leds h
    rw [List.foldl_cons, ih _ (fun x hx => h x (by simp [hx]))]
    have ha := h a (by simp)
    cases a with
    | dk_set_led_on j =>
      have hne : ¬ (i = j) := fun e => by simp [writesLed, e] at ha
      simp [ledStep, hne]
    | dk_set_led_off j =>
      have hne : ¬ (i = j) := fun e => by simp [writesLed, e] at ha
      simp [ledStep, hne]
    | _ => rfl

/-- The same, for the LEDs after a trace. -/
theorem ledsAfter_unwritten (i : Int) (t w : List Act)
    (h : ∀ a ∈ w, writesLed i a = false) :
    ledsAfter (t ++ w) i = ledsAfter t i := by
  rw [ledsAfter_append]
  exact foldl_ledStep_unwritten i w _ h

/-- In a state in `0..3`, `cycle_led` makes no platform call of the heartbeat loop and
stays in `0..3`. -/
theorem cycle_led_quiet (dk : DkHeader) (s : Sys) (h4 : dk.DK_LED4 = 3)
    (hd : dk.DK_LED1 ≠ 1 ∧ dk.DK_LED1 ≠ 2 ∧ dk.DK_LED1 ≠ 3)
    (hlo : 0 ≤ s.current_state) (hhi : s.current_state ≤ 3) :
    ∃ w, (cycle_led dk s).trace = s.trace ++ w ∧
      (∀ a ∈ w, heartbeatAct dk a = false) ∧
      0 ≤ (cycle_led dk s).current_state ∧ (cycle_led dk s).current_state ≤ 3 := by
  obtain ⟨d1, d2, d3⟩ := hd
  have e1 : ¬ (1 = dk.DK_LED1) := fun h => d1 h.symm
  have e2 : ¬ (2 = dk.DK_LED1) := fun h => d2 h.symm
  have e3 : ¬ (3 = dk.DK_LED1) := fun h => d3 h.symm
  have hc : s.current_state = 0 ∨ s.current_state = 1 ∨ s.current_state = 2 ∨
      s.current_state = 3 := by omega
  refine ⟨_, cycle_led_trace dk s, ?_, ?_, ?_⟩
  · rcases hc with hc | hc | hc | hc <;> simp [hc, heartbeatAct, h4, e1, e2, e3]
  · rw [cycle_led_current_state]; split_ifs <;> omega
  · rw [cycle_led_current_state]; split_ifs <;> omega

/-- In a state in `0..3`, `button_handler` makes no platform call of the heartbeat loop
and stays in `0..3`, whatever the edge. -/
theorem button_handler_quiet (dk : DkHeader) (s : Sys) (button_state has_changed : Nat)
    (h4 : dk.DK_LED4 = 3) (hd : dk.DK_LED1 ≠ 1 ∧ dk.DK_LED1 ≠ 2 ∧ dk.DK_LED1 ≠ 3)
    (hlo : 0 ≤ s.current_state) (hhi : s.current_state ≤ 3) :
    ∃ w, (button_handler dk button_state has_changed s).trace = s.trace ++ w ∧
      (∀ a ∈ w, heartbeatAct dk a = false) ∧
      0 ≤ (button_handler dk button_state has_changed s).current_state ∧
      (button_handler dk button_state has_changed s).current_state ≤ 3 := by
  by_cases h1 : has_changed = dk.DK_BTN1_MSK
  · by_cases h2 : button_state = dk.DK_BTN1_MSK
    · rw [h1, h2, button_handler_press]
      exact ⟨_, rfl, by simp [heartbeatAct], hlo, hhi⟩
    · by_cases h3 : button_state = 0
      · subst h3
        by_cases h5 : s.buttons_ctx.long_poll = ATOMIC_FALSE
        · obtain ⟨w, hw, hq, hl, hh⟩ := cycle_led_quiet dk
            { s with buttons_ctx := { s.buttons_ctx with timer := none }
                     trace := s.trace ++ [Act.log LogMsg.button_1_changed,
                                          Act.log LogMsg.button_released, Act.k_timer_stop] }
            h4 hd hlo hhi
          have heq : button_handler dk 0 has_changed s = cycle_led dk
              { s with buttons_ctx := { s.buttons_ctx with timer := none }
                       trace := s.trace ++ [Act.log LogMsg.button_1_changed,
                                            Act.log LogMsg.button_released,
                                            Act.k_timer_stop] } := by
            simp [button_handler, h1, h2, h5, k_timer_stop, emit]
          rw [heq]
          refine ⟨[Act.log LogMsg.button_1_changed, Act.log LogMsg.button_released,
            Act.k_timer_stop] ++ w, by rw [hw, List.append_assoc], ?_, hl, hh⟩
          intro a ha
          rcases List.mem_append.mp ha with ha | ha
          · simp at ha
            rcases ha with ha | ha | ha <;> simp [ha, heartbeatAct]
          · exact hq a ha
        · refine ⟨[Act.log LogMsg.button_1_changed, Act.log LogMsg.button_released,
            Act.k_timer_stop], ?_, by simp [heartbeatAct], ?_, ?_⟩ <;>
            simp [button_handler, h1, h2, h5, k_timer_stop, emit, hlo, hhi]
      · refine ⟨[Act.log LogMsg.button_1_changed], ?_, by simp [heartbeatAct], ?_, ?_⟩ <;>
          simp [button_handler, h1, h2, h3, emit, hlo, hhi]
  · refine ⟨[Act.log LogMsg.unhandled_button], ?_, by simp [heartbeatAct], ?_, ?_⟩ <;>
      simp [button_handler, h1, emit, hlo, hhi]

/-- In a state in `0..3`, `button_timer_handler` makes no platform call of the heartbeat
loop and stays in `0..3`, whatever `dk_get_buttons()` returns. -/
theorem button_timer_handler_quiet (dk : DkHeader) (s : Sys) (buttons : Nat)
    (h4 : dk.DK_LED4 = 3) (hd : dk.DK_LED1 ≠ 1 ∧ dk.DK_LED1 ≠ 2 ∧ dk.DK_LED1 ≠ 3)
    (hlo : 0 ≤ s.current_state) (hhi : s.current_state ≤ 3) :
    ∃ w, (button_timer_handler dk buttons s).trace = s.trace ++ w ∧
      (∀ a ∈ w, heartbeatAct dk a = false) ∧
      0 ≤ (button_timer_handler dk buttons s).current_state ∧
      (button_timer_handler dk buttons s).current_state ≤ 3 := by
  by_cases hheld : buttons &&& s.buttons_ctx.state = 0
  · refine ⟨[], ?_, by simp, ?_, ?_⟩ <;>
      simp [button_timer_handler, hheld, atomic_set_long_poll, hlo, hhi]
  · obtain ⟨w, hw, hq, hl, hh⟩ := cycle_led_quiet dk
      { s with buttons_ctx := { s.buttons_ctx with long_poll := ATOMIC_TRUE }
               trace := s.trace ++ [Act.log LogMsg.long_press_detected] }
      h4 hd hlo hhi
    have heq : button_timer_handler dk buttons s = k_timer_start BUTTON_LONG_POLL_TIME
        (cycle_led dk
          { s with buttons_ctx := { s.buttons_ctx with long_poll := ATOMIC_TRUE }
                   trace := s.trace ++ [Act.log LogMsg.long_press_detected] }) := by
      simp [button_timer_handler, hheld, atomic_set_long_poll, emit]
    rw [heq]
    refine ⟨[Act.log LogMsg.long_press_detected] ++ w ++
      [Act.k_timer_start BUTTON_LONG_POLL_TIME], ?_, ?_, ?_, ?_⟩
    · simp [k_timer_start, hw]
    · intro a ha
      simp only [List.mem_append, List.mem_singleton] at ha
      rcases ha with (ha | ha) | ha
      · simp [ha, heartbeatAct]
      · exact hq a ha
      · simp [ha, heartbeatAct]
    · simpa [k_timer_start] using hl
    · simpa [k_timer_start] using hh

/-- One loop iteration appends its four platform calls and changes nothing else. -/
theorem heartbeat_iteration_eq (dk : DkHeader) (s : Sys) :
    heartbeat_iteration dk s = { s with trace := s.trace ++ heartbeatPattern dk } := by
  simp [heartbeat_iteration, heartbeatPattern, emit]

/-- The first `n` loop iterations append the pattern `n` times and change nothing else. -/
theorem heartbeat_loop_eq (dk : DkHeader) (n : Nat) :
    ∀ s : Sys, heartbeat_loop dk n s = { s with trace := s.trace ++ heartbeatSeq dk n } := by
  induction n with
  | zero => intro s; simp [heartbeat_loop, heartbeatSeq]
  | succ n ih =>
    intro s
    rw [heartbeat_loop, ih, heartbeat_iteration_eq]
    simp [heartbeatSeq]

/-- Repeating the pattern at the front or at the back is the same. -/
theorem heartbeatSeq_succ_back (dk : DkHeader) (n : Nat) :
    heartbeatSeq dk (n + 1) = heartbeatSeq dk n ++ heartbeatPattern dk := by
  induction n with
  | zero => simp [heartbeatSeq]
  | succ n ih =>
    calc heartbeatSeq dk (n + 2)
        = heartbeatPattern dk ++ heartbeatSeq dk (n + 1) := rfl
      _ = heartbeatPattern dk ++ (heartbeatSeq dk n ++ heartbeatPattern dk) := by rw [ih]
      _ = heartbeatSeq dk (n + 1) ++ heartbeatPattern dk := by
        rw [← List.append_assoc]; rfl

/-- The calls number `4 n`, ..., `4 n + 3` of the loop are the pattern. -/
theorem heartbeat_action_block (dk : DkHeader) (n : Nat) :
    [heartbeat_action dk (4 * n), heartbeat_action dk (4 * n + 1),
     heartbeat_action dk (4 * n + 2), heartbeat_action dk (4 * n + 3)]
      = heartbeatPattern dk := by
  have h0 : 4 * n % 4 = 0 := by omega
  have h1 : (4 * n + 1) % 4 = 1 := by omega
  have h2 : (4 * n + 2) % 4 = 2 := by omega
  have h3 : (4 * n + 3) % 4 = 3 := by omega
  simp [heartbeat_action, heartbeatPattern, h0, h1, h2, h3]

/-- The first `4 n` calls of the loop are the pattern repeated `n` times. -/
theorem map_heartbeat_action_range (dk : DkHeader) (n : Nat) :
    (List.range (4 * n)).map (heartbeat_action dk) = heartbeatSeq dk n := by
  induction n with
  | zero => rfl
  | succ n ih =>
    have h : 4 * (n + 1) = 4 * n + 1 + 1 + 1 + 1 := by omega
    rw [h, List.range_succ, List.range_succ, List.range_succ, List.range_succ,
      heartbeatSeq_succ_back, ← heartbeat_action_block dk n]
    simp [ih]

/-- Every call of the loop is a heartbeat call. -/
theorem heartbeatAct_heartbeat_action (dk : DkHeader) (pc : Nat) :
    heartbeatAct dk (heartbeat_action dk pc) = true := by
  unfold heartbeat_action
  split_ifs <;> simp [heartbeatAct]

/-- An event in a state in `0..3` adds no heartbeat call to the trace and stays in
`0..3`. -/
theorem step_quiet (dk : DkHeader) (s s1 : Sys) (e : Event)
    (h4 : dk.DK_LED4 = 3) (hd : dk.DK_LED1 ≠ 1 ∧ dk.DK_LED1 ≠ 2 ∧ dk.DK_LED1 ≠ 3)
    (hlo : 0 ≤ s.current_state) (hhi : s.current_state ≤ 3)
    (hstep : step dk s e = some s1) :
    s1.trace.filter (heartbeatAct dk) = s.trace.filter (heartbeatAct dk) ∧
      0 ≤ s1.current_state ∧ s1.current_state ≤ 3 := by
  have key : ∀ (t u : Sys) (w : List Act), u.trace = t.trace ++ w →
      (∀ a ∈ w, heartbeatAct dk a = false) →
      u.trace.filter (heartbeatAct dk) = t.trace.filter (heartbeatAct dk) := by
    intro t u w hw hq
    rw [hw, List.filter_append]
    have : w.filter (heartbeatAct dk) = [] := by
      rw [List.filter_eq_nil_iff]
      intro a ha
      simp [hq a ha]
    rw [this, List.append_nil]
  cases e with
  | edge button_state has_changed =>
    simp only [step, Option.some.injEq] at hstep
    obtain ⟨w, hw, hq, hl, hh⟩ :=
      button_handler_quiet dk s button_state has_changed h4 hd hlo hhi
    rw [← hstep]
    exact ⟨key s _ w hw hq, hl, hh⟩
  | timer_expiry b =>
    simp only [step] at hstep
    cases ht : s.buttons_ctx.timer with
    | none => simp [ht] at hstep
    | some d =>
      simp only [ht, Option.some.injEq] at hstep
      obtain ⟨w, hw, hq, hl, hh⟩ := button_timer_handler_quiet dk
        { s with buttons_ctx := { s.buttons_ctx with timer := none } } b h4 hd hlo hhi
      rw [← hstep]
      exact ⟨key s _ w hw hq, hl, hh⟩

/-- In any interleaving of the loop's calls with events, from a state in `0..3`, the
heartbeat calls in the trace are exactly the loop's calls, in order. -/
theorem runTicks_heartbeat (dk : DkHeader) (h4 : dk.DK_LED4 = 3)
    (hd : dk.DK_LED1 ≠ 1 ∧ dk.DK_LED1 ≠ 2 ∧ dk.DK_LED1 ≠ 3) (ts : List Tick) :
    ∀ w w1 : World, 0 ≤ w.sys.current_state → w.sys.current_state ≤ 3 →
      runTicks dk w ts = some w1 →
      w1.pc = w.pc + ts.count Tick.main ∧
      w1.sys.trace.filter (heartbeatAct dk) =
        w.sys.trace.filter (heartbeatAct dk) ++
          (List.range' w.pc (ts.count Tick.main)).map (heartbeat_action dk) := by
  induction ts with
  | nil =>
    intro w w1 _ _ hrun
    simp only [runTicks, Option.some.injEq] at hrun
    simp [← hrun]
  | cons t ts ih =>
    intro w w1 hlo hhi hrun
    cases t with
    | main =>
      simp only [runTicks, tick] at hrun
      obtain ⟨hpc, htr⟩ := ih _ w1 (by simpa using hlo) (by simpa using hhi) hrun
      refine ⟨by rw [hpc]; simp; omega, ?_⟩
      rw [htr]
      simp [List.filter_append, heartbeatAct_heartbeat_action, List.range'_succ]
    | event e =>
      simp only [runTicks, tick] at hrun
      cases hs : step dk w.sys e with
      | none => simp [hs] at hrun
      | some s1 =>
        simp only [hs] at hrun
        obtain ⟨hf, hl, hh⟩ := step_quiet dk w.sys s1 e h4 hd hlo hhi hs
        obtain ⟨hpc, htr⟩ := ih _ w1 hl hh hrun
        refine ⟨by rw [hpc]; simp, ?_⟩
        rw [htr]
        simp [hf]

/-- With no event in between, `4 n` calls of the main thread are `n` loop iterations. -/
theorem runTicks_main_only (dk : DkHeader) (n : Nat) :
    ∀ (s : Sys) (k : Nat), runTicks dk { sys := s, pc := 4 * k }
        (List.replicate (4 * n) Tick.main)
      = some { sys := heartbeat_loop dk n s, pc := 4 * (k + n) } := by
  induction n with
  | zero => intro s k; rfl
  | succ n ih =>
    intro s k
    have h : 4 * (n + 1) = 4 * n + 1 + 1 + 1 + 1 := by omega
    have m0 : 4 * k % 4 = 0 := by omega
    have m1 : (4 * k + 1) % 4 = 1 := by omega
    have m2 : (4 * k + 1 + 1) % 4 = 2 := by omega
    have m3 : (4 * k + 1 + 1 + 1) % 4 = 3 := by omega
    have b0 : heartbeat_action dk (4 * k) = Act.dk_set_led_on dk.DK_LED1 := by
      simp [heartbeat_action, m0]
    have b1 : heartbeat_action dk (4 * k + 1) = Act.k_sleep GREEN_LED_BLINK_TIME := by
      simp [heartbeat_action, m1]
    have b2 : heartbeat_action dk (4 * k + 1 + 1) = Act.dk_set_led_off dk.DK_LED1 := by
      simp [heartbeat_action, m2]
    have b3 : heartbeat_action dk (4 * k + 1 + 1 + 1) = Act.k_sleep GREEN_LED_BLINK_TIME := by
      simp [heartbeat_action, m3]
    rw [h]
    simp only [List.replicate_succ, runTicks, tick]
    have hs : emit (heartbeat_action dk (4 * k + 1 + 1 + 1))
        (emit (heartbeat_action dk (4 * k + 1 + 1))
          (emit (heartbeat_action dk (4 * k + 1)) (emit (heartbeat_action dk (4 * k)) s)))
        = heartbeat_iteration dk s := by
      rw [b0, b1, b2, b3]; rfl
    have hk : 4 * k + 1 + 1 + 1 + 1 = 4 * (k + 1) := by omega
    rw [hs, hk, ih (heartbeat_iteration dk s) (k + 1)]
    simp only [heartbeat_loop]
    congr 2
    omega

/-- C11: the heartbeat and the press/cycle logic write different things.  One iteration
of the heartbeat loop appends its four platform calls and nothing else: the only LED
they write is `DK_LED1`, and `buttons_ctx`, `current_state` and the cycle LEDs 1, 2, 3
are unchanged.  In every state with `current_state` in `0..3`, none of the platform
calls made by `cycle_led`, `button_handler` (for any edge) and `button_timer_handler`
(for any reading) writes `DK_LED1`. -/
theorem heartbeat_and_classifier_writes_disjoint (dk : DkHeader) (s : Sys)
    (button_state has_changed buttons : Nat)
    (h4 : dk.DK_LED4 = 3) (hd : dk.DK_LED1 ≠ 1 ∧ dk.DK_LED1 ≠ 2 ∧ dk.DK_LED1 ≠ 3) :
    heartbeat_iteration dk s =
      { s with trace := s.trace ++
          [Act.dk_set_led_on dk.DK_LED1, Act.k_sleep 500,
           Act.dk_set_led_off dk.DK_LED1, Act.k_sleep 500] } ∧
    (∀ a ∈ heartbeatPattern dk, ∀ i, i ≠ dk.DK_LED1 → writesLed i a = false) ∧
    (heartbeat_iteration dk s).buttons_ctx = s.buttons_ctx ∧
    (heartbeat_iteration dk s).current_state = s.current_state ∧
    cycleCalls (heartbeat_iteration dk s) = cycleCalls s ∧
    ledsAfter (heartbeat_iteration dk s).trace 1 = ledsAfter s.trace 1 ∧
    ledsAfter (heartbeat_iteration dk s).trace 2 = ledsAfter s.trace 2 ∧
    ledsAfter (heartbeat_iteration dk s).trace 3 = ledsAfter s.trace 3 ∧
    (0 ≤ s.current_state → s.current_state ≤ 3 →
      (∃ w, (cycle_led dk s).trace = s.trace ++ w ∧
        ∀ a ∈ w, writesLed dk.DK_LED1 a = false) ∧
      (∃ w, (button_handler dk button_state has_changed s).trace = s.trace ++ w ∧
        ∀ a ∈ w, writesLed dk.DK_LED1 a = false) ∧
      (∃ w, (button_timer_handler dk buttons s).trace = s.trace ++ w ∧
        ∀ a ∈ w, writesLed dk.DK_LED1 a = false)) := by
  have hpat : ∀ a ∈ heartbeatPattern dk, ∀ i, i ≠ dk.DK_LED1 → writesLed i a = false := by
    intro a ha i hi
    have hi2 : ¬ (dk.DK_LED1 = i) := fun e => hi e.symm
    simp only [heartbeatPattern, List.mem_cons, List.mem_singleton, List.not_mem_nil,
      or_false] at ha
    rcases ha with ha | ha | ha | ha <;> simp [ha, writesLed, hi2]
  have hleds : ∀ i, i ≠ dk.DK_LED1 →
      ledsAfter (heartbeat_iteration dk s).trace i = ledsAfter s.trace i := by
    intro i hi
    rw [heartbeat_iteration_eq]
    exact ledsAfter_unwritten i s.trace (heartbeatPattern dk) (fun a ha => hpat a ha i hi)
  refine ⟨heartbeat_iteration_eq dk s, hpat, ?_, ?_, ?_, hleds 1 (Ne.symm hd.1),
    hleds 2 (Ne.symm hd.2.1), hleds 3 (Ne.symm hd.2.2), ?_⟩
  · rw [heartbeat_iteration_eq]
  · rw [heartbeat_iteration_eq]
  · rw [heartbeat_iteration_eq]
    simp [cycleCalls, heartbeatPattern, List.count_cons]
  · intro hlo hhi
    obtain ⟨w1, hw1, hq1, _⟩ := cycle_led_quiet dk s h4 hd hlo hhi
    obtain ⟨w2, hw2, hq2, _⟩ :=
      button_handler_quiet dk s button_state has_changed h4 hd hlo hhi
    obtain ⟨w3, hw3, hq3, _⟩ := button_timer_handler_quiet dk s buttons h4 hd hlo hhi
    exact ⟨⟨w1, hw1, fun a ha => writesLed_of_not_heartbeatAct dk a (hq1 a ha)⟩,
      ⟨w2, hw2, fun a ha => writesLed_of_not_heartbeatAct dk a (hq2 a ha)⟩,
      ⟨w3, hw3, fun a ha => writesLed_of_not_heartbeatAct dk a (hq3 a ha)⟩⟩

/-- C11 at a concrete input: the SDK constants, the state after a press and a held
expiry, and the release edge. -/
theorem heartbeat_and_classifier_writes_disjoint_witness :
    nrfHeader.DK_LED4 = 3 ∧
    (nrfHeader.DK_LED1 ≠ 1 ∧ nrfHeader.DK_LED1 ≠ 2 ∧ nrfHeader.DK_LED1 ≠ 3) ∧
    (heartbeat_iteration nrfHeader
        (timer_expire nrfHeader 1 (button_handler nrfHeader 1 1 init))).current_state = 1 ∧
    ledsAfter (heartbeat_iteration nrfHeader
        (timer_expire nrfHeader 1 (button_handler nrfHeader 1 1 init))).trace 1
      = ledsAfter (timer_expire nrfHeader 1 (button_handler nrfHeader 1 1 init)).trace 1 :=
  ⟨rfl, by decide, by decide,
    (heartbeat_and_classifier_writes_disjoint nrfHeader
      (timer_expire nrfHeader 1 (button_handler nrfHeader 1 1 init)) 0 1 1
      rfl (by decide)).2.2.2.2.2.1⟩

/-- C12: for every `n`, the first `n` iterations of the heartbeat loop of `main` append
to the trace exactly the sequence `DK_LED1` on, sleep 500 ms, `DK_LED1` off, sleep
500 ms, repeated `n` times, and change nothing else.  The same holds whatever button
events occur: in any interleaving of the loop's calls with edge and timer events, from
a state in `0..3`, the writes of `DK_LED1` and the sleeps found in the trace are exactly
the calls the loop has made so far, in order, hence that sequence once the loop has
made `4 n` calls.  For `n` = 2 (2000 ms of sleep) the LED goes on, off, on, off with a
sleep of 500 ms after each write. -/
theorem heartbeat_loop_sequence (dk : DkHeader) (s : Sys) (n : Nat) :
    heartbeat_loop dk n s = { s with trace := s.trace ++ heartbeatSeq dk n } ∧
    runTicks dk { sys := s, pc := 0 } (List.replicate (4 * n) Tick.main)
      = some { sys := heartbeat_loop dk n s, pc := 4 * n } ∧
    (∀ (ts : List Tick) (w1 : World), dk.DK_LED4 = 3 →
      (dk.DK_LED1 ≠ 1 ∧ dk.DK_LED1 ≠ 2 ∧ dk.DK_LED1 ≠ 3) →
      0 ≤ s.current_state → s.current_state ≤ 3 →
      runTicks dk { sys := s, pc := 0 } ts = some w1 →
      w1.pc = ts.count Tick.main ∧
      w1.sys.trace.filter (heartbeatAct dk) =
        s.trace.filter (heartbeatAct dk) ++ (List.range w1.pc).map (heartbeat_action dk) ∧
      (ts.count Tick.main = 4 * n →
        w1.sys.trace.filter (heartbeatAct dk) =
          s.trace.filter (heartbeatAct dk) ++ heartbeatSeq dk n)) ∧
    heartbeatSeq dk 2 =
      [Act.dk_set_led_on dk.DK_LED1, Act.k_sleep 500,
       Act.dk_set_led_off dk.DK_LED1, Act.k_sleep 500,
       Act.dk_set_led_on dk.DK_LED1, Act.k_sleep 500,
       Act.dk_set_led_off dk.DK_LED1, Act.k_sleep 500] := by
  refine ⟨heartbeat_loop_eq dk n s, ?_, ?_, rfl⟩
  · have h := runTicks_main_only dk n s 0
    simpa using h
  · intro ts w1 h4 hd hlo hhi hrun
    obtain ⟨hpc, htr⟩ := runTicks_heartbeat dk h4 hd ts _ w1 hlo hhi hrun
    simp only [Nat.zero_add] at hpc
    have htr2 : w1.sys.trace.filter (heartbeatAct dk) =
        s.trace.filter (heartbeatAct dk) ++ (List.range w1.pc).map (heartbeat_action dk) := by
      rw [htr, hpc, List.range_eq_range']
    refine ⟨hpc, htr2, fun h4n => ?_⟩
    rw [htr2, hpc, h4n, map_heartbeat_action_range]

/-- C12 at a concrete input: one loop iteration interleaved with a press edge and a
held timer expiry in the initial context, and two iterations without events. -/
theorem heartbeat_loop_sequence_witness :
    nrfHeader.DK_LED4 = 3 ∧
    (nrfHeader.DK_LED1 ≠ 1 ∧ nrfHeader.DK_LED1 ≠ 2 ∧ nrfHeader.DK_LED1 ≠ 3) ∧
    runTicks nrfHeader { sys := init, pc := 0 }
      [Tick.main, Tick.event (pressEdge nrfHeader), Tick.main,
       Tick.event (Event.timer_expiry 1), Tick.main, Tick.main]
      = some { sys := emit (Act.k_sleep 500) (emit (Act.dk_set_led_off 0)
                (timer_expire nrfHeader 1 (emit (Act.k_sleep 500)
                  (button_handler nrfHeader 1 1 (emit (Act.dk_set_led_on 0) init))))),
               pc := 4 } ∧
    (emit (Act.k_sleep 500) (emit (Act.dk_set_led_off 0)
        (timer_expire nrfHeader 1 (emit (Act.k_sleep 500)
          (button_handler nrfHeader 1 1 (emit (Act.dk_set_led_on 0) init)))))).trace.filter
        (heartbeatAct nrfHeader)
      = init.trace.filter (heartbeatAct nrfHeader) ++ heartbeatSeq nrfHeader 1 ∧
    heartbeat_loop nrfHeader 2 init =
      { init with trace := init.trace ++ heartbeatSeq nrfHeader 2 } :=
  ⟨rfl, by decide, by decide,
    ((heartbeat_loop_sequence nrfHeader init 1).2.2.1
      [Tick.main, Tick.event (pressEdge nrfHeader), Tick.main,
       Tick.event (Event.timer_expiry 1), Tick.main, Tick.main]
      { sys := emit (Act.k_sleep 500) (emit (Act.dk_set_led_off 0)
                (timer_expire nrfHeader 1 (emit (Act.k_sleep 500)
                  (button_handler nrfHeader 1 1 (emit (Act.dk_set_led_on 0) init))))),
        pc := 4 }
      rfl (by decide) (by decide) (by decide) (by decide)).2.2 (by decide),
    (heartbeat_loop_sequence nrfHeader init 2).1⟩

end HelloDongle
